import Mathlib

/-!
MiniCore: capability / interface validation (`core/src/validate.c`)

A shallow embedding of `validate_object_interfaces` and of its five
per-capability validators, together with the properties the specification
states about them.

Conventions of the embedding:

* a C pointer that may be `NULL` is an `Option`; `none` is `NULL`;
* the standard output stream written by `wprintf` is the list of the texts
  written so far, one element per `wprintf` call, oldest first; every function
  that may print takes the stream and returns the stream it leaves behind;
* every `wprintf` call is taken to succeed, and `%s` to insert the object name
  (a valid, non-`NULL` string) as it is;
* `bool` is `Bool`.
-/

namespace MiniCore

/-! ## Data model -/

/-- An entry point of a bundle: a C function pointer. `none` is the `NULL`
pointer, `some a` a pointer to the code at address `a`. -/
abbrev FnPtr := Option Nat

/-- The standard output stream: the texts written by the successive `wprintf`
calls, oldest first. -/
abbrev Stream := List String

/-- Modelled from the spec: the `Drawable` bundle declared in `core.h` (not
part of the given sources); the field `validate_drawable` reads. -/
structure Drawable where
  print : FnPtr
  deriving DecidableEq, Repr

/-- Modelled from the spec: the `Interactable` bundle declared in `core.h` (not
part of the given sources); the fields `validate_interactable` reads. -/
structure Interactable where
  move : FnPtr
  place_cursor : FnPtr
  deriving DecidableEq, Repr

/-- Modelled from the spec: the `CardHandler` bundle declared in `core.h` (not
part of the given sources); the two internal flags and the entry points
`validate_card_handler` reads. -/
structure CardHandler where
  can_give_cards : Bool
  can_take_cards : Bool
  select_cards : FnPtr
  get_cards : FnPtr
  is_same_card : FnPtr
  can_place : FnPtr
  place_cards : FnPtr
  deriving DecidableEq, Repr

/-- Modelled from the spec: the `ButtonHandler` bundle declared in `core.h`
(not part of the given sources); the fields `validate_button_handler` reads. -/
structure ButtonHandler where
  is_button_position : FnPtr
  handle_button : FnPtr
  deriving DecidableEq, Repr

/-- Modelled from the spec: the `Dynamic` bundle declared in `core.h` (not part
of the given sources); the field `validate_dynamic` reads. -/
structure Dynamic where
  free : FnPtr
  deriving DecidableEq, Repr

/-- Modelled from the spec: the `ObjectInterfaces` record declared in `core.h`
(not part of the given sources): a name, five capability flags and five
bundle references, each of which may be `NULL`. -/
structure ObjectInterfaces where
  name : String
  is_drawable : Bool
  is_interactable : Bool
  can_hold_cards : Bool
  have_buttons : Bool
  is_dynamic : Bool
  drawable : Option Drawable
  interactable : Option Interactable
  card_handler : Option CardHandler
  button_handler : Option ButtonHandler
  dynamic : Option Dynamic
  deriving DecidableEq, Repr

/-- Modelled from the spec: the `InterfaceValidator` triple declared in
`core.h` (not part of the given sources): a capability flag, the bundle
reference (a `const void *` in C, here a reference to a bundle of some type
`β`) and the validator for that kind of bundle. -/
structure InterfaceValidator where
  β : Type
  capability_flag : Bool
  interface : Option β
  validate : Option β → String → Stream → Bool × Stream

/-! ## Output -/

/-- One `wprintf` call: appends the formatted text to the stream. -/
def wprintf (text : String) (out : Stream) : Stream :=
  out ++ [text]

/-! ## The five validators -/

/-- `validate_drawable` (validate.c, lines 19-31). -/
def validate_drawable (interface : Option Drawable) (name : String) (out : Stream) :
    Bool × Stream :=
  match interface with
  | none => (false, wprintf ("Error in " ++ name ++ ": Drawable interface is NULL\n") out)
  | some drawable =>
    if drawable.print.isNone then
      (false, wprintf ("Error in " ++ name ++
        ": Drawable interface is missing print function\n") out)
    else (true, out)

/-- `validate_interactable` (validate.c, lines 33-51). -/
def validate_interactable (interface : Option Interactable) (name : String) (out : Stream) :
    Bool × Stream :=
  match interface with
  | none => (false, wprintf ("Error in '" ++ name ++ "': Interactable interface is NULL\n") out)
  | some interactable =>
    if interactable.move.isNone then
      (false, wprintf ("Error in '" ++ name ++
        "': Interactable interface is missing 'move' function\n") out)
    else if interactable.place_cursor.isNone then
      (false, wprintf ("Error in '" ++ name ++
        "': Interactable interface is missing 'place_cursor' function\n") out)
    else (true, out)

/-- The `can_take_cards` half of `validate_card_handler` (validate.c, lines
77-88): what the function does once the `can_give_cards` block is passed. -/
def validate_card_handler_take (handler : CardHandler) (name : String) (out : Stream) :
    Bool × Stream :=
  if handler.can_take_cards then
    if handler.can_place.isNone then
      (false, wprintf ("Error in '" ++ name ++
        "': Object declares can_take_cards but 'can_place' function are missing\n") out)
    else if handler.place_cards.isNone then
      (false, wprintf ("Error in '" ++ name ++
        "': Object declares can_take_cards but 'place_cards' function are missing\n") out)
    else (true, out)
  else (true, out)

/-- `validate_card_handler` (validate.c, lines 53-89). -/
def validate_card_handler (interface : Option CardHandler) (name : String) (out : Stream) :
    Bool × Stream :=
  match interface with
  | none => (false, wprintf ("Error in '" ++ name ++ "': CardHandler interface is NULL\n") out)
  | some handler =>
    if handler.can_give_cards then
      if handler.select_cards.isNone then
        (false, wprintf ("Error in '" ++ name ++
          "': Object declares can_give_cards but 'select_cards' function are missing\n") out)
      else if handler.get_cards.isNone then
        (false, wprintf ("Error in '" ++ name ++
          "': Object declares can_give_cards but 'get_cards' function are missing\n") out)
      else if handler.is_same_card.isNone then
        (false, wprintf ("Error in '" ++ name ++
          "': Object declares can_give_cards but 'is_same_card' function are missing\n") out)
      else validate_card_handler_take handler name out
    else validate_card_handler_take handler name out

/-- `validate_button_handler` (validate.c, lines 91-109). -/
def validate_button_handler (interface : Option ButtonHandler) (name : String) (out : Stream) :
    Bool × Stream :=
  match interface with
  | none => (false, wprintf ("Error in '" ++ name ++ "': ButtonHandler interface is NULL\n") out)
  | some handler =>
    if handler.is_button_position.isNone then
      (false, wprintf ("Error in '" ++ name ++
        "': ButtonHandler interface is missing 'is_button_position' function\n") out)
    else if handler.handle_button.isNone then
      (false, wprintf ("Error in '" ++ name ++
        "': ButtonHandler interface is missing 'handle_button' function\n") out)
    else (true, out)

/-- `validate_dynamic` (validate.c, lines 111-124). -/
def validate_dynamic (interface : Option Dynamic) (name : String) (out : Stream) :
    Bool × Stream :=
  match interface with
  | none => (false, wprintf ("Error in '" ++ name ++ "': Dynamic interface is NULL\n") out)
  | some dynamic =>
    if dynamic.free.isNone then
      (false, wprintf ("Error in '" ++ name ++
        "': Dynamic interface is missing 'free' function\n") out)
    else (true, out)

/-! ## The validation engine -/

/-- Modelled from the spec: the `VALIDATOR(flag, slot, fn)` initialiser macro
of `core.h` (not part of the given sources) builds one registry entry from a
capability flag of `interfaces`, the matching bundle slot and the validator.
This is the array `validators[]` of `validate_object_interfaces`
(validate.c, lines 127-133), in the order it is written there. -/
def validators (interfaces : ObjectInterfaces) : List InterfaceValidator :=
  [ ⟨Drawable, interfaces.is_drawable, interfaces.drawable, validate_drawable⟩,
    ⟨Interactable, interfaces.is_interactable, interfaces.interactable, validate_interactable⟩,
    ⟨CardHandler, interfaces.can_hold_cards, interfaces.card_handler, validate_card_handler⟩,
    ⟨ButtonHandler, interfaces.have_buttons, interfaces.button_handler, validate_button_handler⟩,
    ⟨Dynamic, interfaces.is_dynamic, interfaces.dynamic, validate_dynamic⟩ ]

/-- The `for` loop of `validate_object_interfaces` (validate.c, lines
135-142) over the entries still to be visited: an entry whose flag is false is
skipped without calling its validator (`&&` short-circuits); the first
validator that returns false ends the loop with `false`; after the last entry
the result is `true`. -/
def validate_loop : List InterfaceValidator → String → Stream → Bool × Stream
  | [], _, out => (true, out)
  | v :: rest, name, out =>
    if v.capability_flag then
      let r := v.validate v.interface name out
      if !r.1 then (false, r.2) else validate_loop rest name r.2
    else validate_loop rest name out

/-- `validate_object_interfaces` (validate.c, lines 126-143), for a valid
(non-`NULL`) `interfaces` reference. -/
def validate_object_interfaces (interfaces : ObjectInterfaces) (out : Stream) :
    Bool × Stream :=
  validate_loop (validators interfaces) interfaces.name out

/-! ## The validators with guarded field reads

A second rendering of the same source in which every read of a field through a
bundle pointer is explicit and fails when the pointer is `NULL`. -/

/-- What goes wrong when a field is read through a `NULL` pointer. -/
inductive Fault where
  | null_dereference
  deriving DecidableEq, Repr

/-- The C expression `p->field`: the field of the bundle `p` points to, and a
fault when `p` is `NULL`. -/
def read_field {β α : Type} (p : Option β) (field : β → α) : Except Fault α :=
  match p with
  | none => .error .null_dereference
  | some b => .ok (field b)

/-- `validate_drawable` (validate.c, lines 19-31), field reads explicit. -/
def validate_drawable_checked (interface : Option Drawable) (name : String) (out : Stream) :
    Except Fault (Bool × Stream) := do
  if interface.isNone then
    return (false, wprintf ("Error in " ++ name ++ ": Drawable interface is NULL\n") out)
  if (← read_field interface Drawable.print).isNone then
    return (false, wprintf ("Error in " ++ name ++
      ": Drawable interface is missing print function\n") out)
  return (true, out)

/-- `validate_interactable` (validate.c, lines 33-51), field reads explicit. -/
def validate_interactable_checked (interface : Option Interactable) (name : String)
    (out : Stream) : Except Fault (Bool × Stream) := do
  if interface.isNone then
    return (false, wprintf ("Error in '" ++ name ++ "': Interactable interface is NULL\n") out)
  if (← read_field interface Interactable.move).isNone then
    return (false, wprintf ("Error in '" ++ name ++
      "': Interactable interface is missing 'move' function\n") out)
  if (← read_field interface Interactable.place_cursor).isNone then
    return (false, wprintf ("Error in '" ++ name ++
      "': Interactable interface is missing 'place_cursor' function\n") out)
  return (true, out)

/-- `validate_card_handler` (validate.c, lines 53-89), field reads explicit. -/
def validate_card_handler_checked (interface : Option CardHandler) (name : String)
    (out : Stream) : Except Fault (Bool × Stream) := do
  if interface.isNone then
    return (false, wprintf ("Error in '" ++ name ++ "': CardHandler interface is NULL\n") out)
  if (← read_field interface CardHandler.can_give_cards) then
    if (← read_field interface CardHandler.select_cards).isNone then
      return (false, wprintf ("Error in '" ++ name ++
        "': Object declares can_give_cards but 'select_cards' function are missing\n") out)
    if (← read_field interface CardHandler.get_cards).isNone then
      return (false, wprintf ("Error in '" ++ name ++
        "': Object declares can_give_cards but 'get_cards' function are missing\n") out)
    if (← read_field interface CardHandler.is_same_card).isNone then
      return (false, wprintf ("Error in '" ++ name ++
        "': Object declares can_give_cards but 'is_same_card' function are missing\n") out)
  if (← read_field interface CardHandler.can_take_cards) then
    if (← read_field interface CardHandler.can_place).isNone then
      return (false, wprintf ("Error in '" ++ name ++
        "': Object declares can_take_cards but 'can_place' function are missing\n") out)
    if (← read_field interface CardHandler.place_cards).isNone then
      return (false, wprintf ("Error in '" ++ name ++
        "': Object declares can_take_cards but 'place_cards' function are missing\n") out)
  return (true, out)

/-- `validate_button_handler` (validate.c, lines 91-109), field reads
explicit. -/
def validate_button_handler_checked (interface : Option ButtonHandler) (name : String)
    (out : Stream) : Except Fault (Bool × Stream) := do
  if interface.isNone then
    return (false, wprintf ("Error in '" ++ name ++ "': ButtonHandler interface is NULL\n") out)
  if (← read_field interface ButtonHandler.is_button_position).isNone then
    return (false, wprintf ("Error in '" ++ name ++
      "': ButtonHandler interface is missing 'is_button_position' function\n") out)
  if (← read_field interface ButtonHandler.handle_button).isNone then
    return (false, wprintf ("Error in '" ++ name ++
      "': ButtonHandler interface is missing 'handle_button' function\n") out)
  return (true, out)

/-- `validate_dynamic` (validate.c, lines 111-124), field reads explicit. -/
def validate_dynamic_checked (interface : Option Dynamic) (name : String) (out : Stream) :
    Except Fault (Bool × Stream) := do
  if interface.isNone then
    return (false, wprintf ("Error in '" ++ name ++ "': Dynamic interface is NULL\n") out)
  if (← read_field interface Dynamic.free).isNone then
    return (false, wprintf ("Error in '" ++ name ++
      "': Dynamic interface is missing 'free' function\n") out)
  return (true, out)

/-- Modelled from the spec: the `InterfaceValidator` triple of `core.h` (not
part of the given sources), for validators whose field reads may fault. -/
structure CheckedValidator where
  β : Type
  capability_flag : Bool
  interface : Option β
  validate : Option β → String → Stream → Except Fault (Bool × Stream)

/-- The array `validators[]` of `validate_object_interfaces` (validate.c, lines
127-133) over the validators with explicit field reads. Building it reads the
flags and the bundle pointers of `interfaces`, not the bundles. -/
def validators_checked (interfaces : ObjectInterfaces) : List CheckedValidator :=
  [ ⟨Drawable, interfaces.is_drawable, interfaces.drawable, validate_drawable_checked⟩,
    ⟨Interactable, interfaces.is_interactable, interfaces.interactable,
      validate_interactable_checked⟩,
    ⟨CardHandler, interfaces.can_hold_cards, interfaces.card_handler,
      validate_card_handler_checked⟩,
    ⟨ButtonHandler, interfaces.have_buttons, interfaces.button_handler,
      validate_button_handler_checked⟩,
    ⟨Dynamic, interfaces.is_dynamic, interfaces.dynamic, validate_dynamic_checked⟩ ]

/-- The `for` loop of `validate_object_interfaces` (validate.c, lines 135-142)
over validators that may fault: a fault in a validator ends the run. -/
def validate_loop_checked : List CheckedValidator → String → Stream →
    Except Fault (Bool × Stream)
  | [], _, out => .ok (true, out)
  | v :: rest, name, out =>
    if v.capability_flag then
      match v.validate v.interface name out with
      | .error e => .error e
      | .ok r => if !r.1 then .ok (false, r.2) else validate_loop_checked rest name r.2
    else validate_loop_checked rest name out

/-- `validate_object_interfaces` (validate.c, lines 126-143) with explicit
field reads, for a valid (non-`NULL`) `interfaces` reference. -/
def validate_object_interfaces_checked (interfaces : ObjectInterfaces) (out : Stream) :
    Except Fault (Bool × Stream) :=
  validate_loop_checked (validators_checked interfaces) interfaces.name out

/-! ## The validators over a memory

A third rendering of the same source, as a program that runs on a memory which
it may read and write: the records and bundles lie at addresses, the source's
pointers are addresses, and a run returns the memory it leaves behind. -/

/-- An address; `0` is `NULL`. -/
abbrev Addr := Nat

/-- Modelled from the spec: the `ObjectInterfaces` record of `core.h` (not part
of the given sources) as it lies in memory: the name, the five capability
flags and the five bundle pointers. -/
structure ObjectRecord where
  name : String
  is_drawable : Bool
  is_interactable : Bool
  can_hold_cards : Bool
  have_buttons : Bool
  is_dynamic : Bool
  drawable : Addr
  interactable : Addr
  card_handler : Addr
  button_handler : Addr
  dynamic : Addr

/-- The memory of the program: what is stored at each address, by type of
record (`none` where no record of that type lies), the static storage, and
the standard output stream. -/
structure Machine where
  objects : Addr → Option ObjectRecord
  drawables : Addr → Option Drawable
  interactables : Addr → Option Interactable
  card_handlers : Addr → Option CardHandler
  button_handlers : Addr → Option ButtonHandler
  dynamics : Addr → Option Dynamic
  statics : List Nat
  out : Stream

/-- What goes wrong when memory is read through a bad pointer. -/
inductive MemoryFault where
  | null_pointer
  | wild_pointer
  deriving DecidableEq, Repr

/-- A program over the memory: from a memory, a fault, or a result and the
memory left behind. -/
abbrev Exec := StateT Machine (Except MemoryFault)

/-- The C expression `*p` for a pointer `p` to a record of the type stored in
`cells`: a fault when `p` is `NULL` or no such record lies at `p`. -/
def load {β : Type} (cells : Machine → Addr → Option β) (p : Addr) : Exec β := do
  if p = 0 then
    throw MemoryFault.null_pointer
  match cells (← get) p with
  | some b => return b
  | none => throw MemoryFault.wild_pointer

/-- One `wprintf` call of a program over the memory. -/
def wprintf_exec (text : String) : Exec Unit :=
  modify fun m => { m with out := wprintf text m.out }

/-- `validate_drawable` (validate.c, lines 19-31) over the memory. -/
def validate_drawable_exec (interface : Addr) (name : String) : Exec Bool := do
  if interface = 0 then
    wprintf_exec ("Error in " ++ name ++ ": Drawable interface is NULL\n")
    return false
  if (← load Machine.drawables interface).print.isNone then
    wprintf_exec ("Error in " ++ name ++ ": Drawable interface is missing print function\n")
    return false
  return true

/-- `validate_interactable` (validate.c, lines 33-51) over the memory. -/
def validate_interactable_exec (interface : Addr) (name : String) : Exec Bool := do
  if interface = 0 then
    wprintf_exec ("Error in '" ++ name ++ "': Interactable interface is NULL\n")
    return false
  if (← load Machine.interactables interface).move.isNone then
    wprintf_exec ("Error in '" ++ name ++
      "': Interactable interface is missing 'move' function\n")
    return false
  if (← load Machine.interactables interface).place_cursor.isNone then
    wprintf_exec ("Error in '" ++ name ++
      "': Interactable interface is missing 'place_cursor' function\n")
    return false
  return true

/-- `validate_card_handler` (validate.c, lines 53-89) over the memory. -/
def validate_card_handler_exec (interface : Addr) (name : String) : Exec Bool := do
  if interface = 0 then
    wprintf_exec ("Error in '" ++ name ++ "': CardHandler interface is NULL\n")
    return false
  if (← load Machine.card_handlers interface).can_give_cards then
    if (← load Machine.card_handlers interface).select_cards.isNone then
      wprintf_exec ("Error in '" ++ name ++
        "': Object declares can_give_cards but 'select_cards' function are missing\n")
      return false
    if (← load Machine.card_handlers interface).get_cards.isNone then
      wprintf_exec ("Error in '" ++ name ++
        "': Object declares can_give_cards but 'get_cards' function are missing\n")
      return false
    if (← load Machine.card_handlers interface).is_same_card.isNone then
      wprintf_exec ("Error in '" ++ name ++
        "': Object declares can_give_cards but 'is_same_card' function are missing\n")
      return false
  if (← load Machine.card_handlers interface).can_take_cards then
    if (← load Machine.card_handlers interface).can_place.isNone then
      wprintf_exec ("Error in '" ++ name ++
        "': Object declares can_take_cards but 'can_place' function are missing\n")
      return false
    if (← load Machine.card_handlers interface).place_cards.isNone then
      wprintf_exec ("Error in '" ++ name ++
        "': Object declares can_take_cards but 'place_cards' function are missing\n")
      return false
  return true

/-- `validate_button_handler` (validate.c, lines 91-109) over the memory. -/
def validate_button_handler_exec (interface : Addr) (name : String) : Exec Bool := do
  if interface = 0 then
    wprintf_exec ("Error in '" ++ name ++ "': ButtonHandler interface is NULL\n")
    return false
  if (← load Machine.button_handlers interface).is_button_position.isNone then
    wprintf_exec ("Error in '" ++ name ++
      "': ButtonHandler interface is missing 'is_button_position' function\n")
    return false
  if (← load Machine.button_handlers interface).handle_button.isNone then
    wprintf_exec ("Error in '" ++ name ++
      "': ButtonHandler interface is missing 'handle_button' function\n")
    return false
  return true

/-- `validate_dynamic` (validate.c, lines 111-124) over the memory. -/
def validate_dynamic_exec (interface : Addr) (name : String) : Exec Bool := do
  if interface = 0 then
    wprintf_exec ("Error in '" ++ name ++ "': Dynamic interface is NULL\n")
    return false
  if (← load Machine.dynamics interface).free.isNone then
    wprintf_exec ("Error in '" ++ name ++ "': Dynamic interface is missing 'free' function\n")
    return false
  return true

/-- Modelled from the spec: the `InterfaceValidator` triple of `core.h` (not
part of the given sources) for validators over the memory: the flag, the
bundle pointer and the validator. -/
structure ExecValidator where
  capability_flag : Bool
  interface : Addr
  validate : Addr → String → Exec Bool

/-- The `for` loop of `validate_object_interfaces` (validate.c, lines 135-142)
over the memory; `interfaces->name` is read at each call of a validator. -/
def validate_loop_exec (interfaces : Addr) : List ExecValidator → Exec Bool
  | [] => return true
  | v :: rest => do
    if v.capability_flag then
      if !(← v.validate v.interface (← load Machine.objects interfaces).name) then
        return false
    validate_loop_exec interfaces rest

/-- `validate_object_interfaces` (validate.c, lines 126-143) over the memory:
the array `validators[]` is filled from the flags and bundle pointers read
through `interfaces`, then the loop runs. -/
def validate_object_interfaces_exec (interfaces : Addr) : Exec Bool := do
  let r ← load Machine.objects interfaces
  validate_loop_exec interfaces
    [ ⟨r.is_drawable, r.drawable, validate_drawable_exec⟩,
      ⟨r.is_interactable, r.interactable, validate_interactable_exec⟩,
      ⟨r.can_hold_cards, r.card_handler, validate_card_handler_exec⟩,
      ⟨r.have_buttons, r.button_handler, validate_button_handler_exec⟩,
      ⟨r.is_dynamic, r.dynamic, validate_dynamic_exec⟩ ]

/-! ## Specification vocabulary

The definitions below follow the words of the specification (data model
table, validity invariant, documented checking order, diagnostic format); the
theorems compare the code above with them. -/

/-- Spec, Drawable row: the bundle is present and supplies `print`. -/
def drawable_ok : Option Drawable → Bool
  | none => false
  | some b => b.print.isSome

/-- Spec, Interactable row: the bundle is present and supplies `move` and
`place_cursor`. -/
def interactable_ok : Option Interactable → Bool
  | none => false
  | some b => b.move.isSome && b.place_cursor.isSome

/-- Spec, CardHandler row: the bundle is present; when `can_give_cards` is true
it supplies `select_cards`, `get_cards` and `is_same_card`; when
`can_take_cards` is true it supplies `can_place` and `place_cards`. -/
def card_handler_ok : Option CardHandler → Bool
  | none => false
  | some b =>
    (!b.can_give_cards || (b.select_cards.isSome && b.get_cards.isSome && b.is_same_card.isSome))
    && (!b.can_take_cards || (b.can_place.isSome && b.place_cards.isSome))

/-- Spec, ButtonHandler row: the bundle is present and supplies
`is_button_position` and `handle_button`. -/
def button_handler_ok : Option ButtonHandler → Bool
  | none => false
  | some b => b.is_button_position.isSome && b.handle_button.isSome

/-- Spec, Dynamic row: the bundle is present and supplies `free`. -/
def dynamic_ok : Option Dynamic → Bool
  | none => false
  | some b => b.free.isSome

/-- The validity invariant of the specification: every capability flag that
is set is backed by a present bundle supplying every entry point required of
that kind of bundle. -/
def Valid (o : ObjectInterfaces) : Prop :=
  (o.is_drawable = true → drawable_ok o.drawable = true) ∧
  (o.is_interactable = true → interactable_ok o.interactable = true) ∧
  (o.can_hold_cards = true → card_handler_ok o.card_handler = true) ∧
  (o.have_buttons = true → button_handler_ok o.button_handler = true) ∧
  (o.is_dynamic = true → dynamic_ok o.dynamic = true)

instance (o : ObjectInterfaces) : Decidable (Valid o) := by
  unfold Valid; infer_instance

/-- A registry entry does not stop the check: its flag is false, or its
validator accepts its bundle. -/
def passes (v : InterfaceValidator) (name : String) (out : Stream) : Prop :=
  v.capability_flag = false ∨ (v.validate v.interface name out).1 = true

/-- A registry entry whose validator prints nothing when it accepts. -/
def quiet (v : InterfaceValidator) : Prop :=
  ∀ name out, (v.validate v.interface name out).1 = true →
    (v.validate v.interface name out).2 = out

/-- A diagnostic line about the object `name`: fixed text before and after
the name, closed by a newline, with no other newline in the fixed text. -/
def diagnostic_line (name line : String) : Prop :=
  ∃ pre post : String, line = pre ++ name ++ post ++ "\n" ∧ '\n' ∉ pre.data ∧ '\n' ∉ post.data

/-- The earliest entry of a list of required entry points, in the order of
the list, whose pointer is absent; `none` when all are present. -/
def earliest_absent {α : Type} : List (α × FnPtr) → Option α
  | [] => none
  | (a, p) :: rest => if p.isNone then some a else earliest_absent rest

/-- How many of the required entry points are absent. -/
def absent_count {α : Type} : List (α × FnPtr) → Nat
  | [] => 0
  | (_, p) :: rest => (if p.isNone then 1 else 0) + absent_count rest

/-- Spec 4.3: the entry points required of an Interactable bundle, in the
documented order of checking. -/
def required_interactable (b : Interactable) : List (String × FnPtr) :=
  [("move", b.move), ("place_cursor", b.place_cursor)]

/-- Spec 4.5: the entry points required of a ButtonHandler bundle, in the
documented order of checking. -/
def required_button_handler (b : ButtonHandler) : List (String × FnPtr) :=
  [("is_button_position", b.is_button_position), ("handle_button", b.handle_button)]

/-- Spec 4.6: the entry point required of a Dynamic bundle. -/
def required_dynamic (b : Dynamic) : List (String × FnPtr) :=
  [("free", b.free)]

/-- Spec 4.4: the entry points required of a CardHandler bundle, each with the
sub-flag that makes it required, in the documented order of checking: those of
`can_give_cards` when it is true, then those of `can_take_cards` when it is
true. -/
def required_card_handler (b : CardHandler) : List ((String × String) × FnPtr) :=
  (if b.can_give_cards then
    [(("can_give_cards", "select_cards"), b.select_cards),
     (("can_give_cards", "get_cards"), b.get_cards),
     (("can_give_cards", "is_same_card"), b.is_same_card)] else []) ++
  (if b.can_take_cards then
    [(("can_take_cards", "can_place"), b.can_place),
     (("can_take_cards", "place_cards"), b.place_cards)] else [])

/-- The five kinds of bundle, by the names the diagnostics use. -/
def bundle_kinds : List String :=
  ["Drawable", "Interactable", "CardHandler", "ButtonHandler", "Dynamic"]

/-- Spec 6, the general form of a diagnostic:
`Error in '<object name>': <Bundle> interface is <condition>`, closed by a
newline. -/
def msg_interface (name kind condition : String) : String :=
  "Error in '" ++ name ++ ("': " ++ kind ++ " interface is " ++ condition ++ "\n")

/-- Spec 6 and 4.2-4.6: the diagnostic for an absent bundle, whose condition
is `NULL`. -/
def msg_null (name kind : String) : String :=
  msg_interface name kind "NULL"

/-- Spec 6, second form of a diagnostic:
`Error in '<object name>': <Bundle> interface is missing '<entry point>' function`. -/
def msg_missing (name kind entry : String) : String :=
  msg_interface name kind ("missing '" ++ entry ++ "' function")

/-- The text the CardHandler validator prints for an entry point `entry` that
is missing although the sub-flag `flag` is true:
`Error in '<object name>': Object declares <flag> but '<entry>' function are missing`. -/
def msg_declares (name flag entry : String) : String :=
  "Error in '" ++ name ++
    ("': Object declares " ++ flag ++ " but '" ++ entry ++ "' function are missing\n")

/-- The diagnostic expected for an Interactable bundle reference: none when it
is valid, else the line for the absent bundle or for its earliest missing
entry point. -/
def expected_interactable (name : String) : Option Interactable → Option String
  | none => some (msg_null name "Interactable")
  | some b => (earliest_absent (required_interactable b)).map (msg_missing name "Interactable")

/-- The diagnostic expected for a CardHandler bundle reference: none when it
is valid, else the line for the absent bundle or for its earliest missing
entry point together with the sub-flag requiring it. -/
def expected_card_handler (name : String) : Option CardHandler → Option String
  | none => some (msg_null name "CardHandler")
  | some b => (earliest_absent (required_card_handler b)).map
      (fun fe => msg_declares name fe.1 fe.2)

/-- The diagnostic expected for a ButtonHandler bundle reference. -/
def expected_button_handler (name : String) : Option ButtonHandler → Option String
  | none => some (msg_null name "ButtonHandler")
  | some b => (earliest_absent (required_button_handler b)).map
      (msg_missing name "ButtonHandler")

/-- The diagnostic expected for a Dynamic bundle reference. -/
def expected_dynamic (name : String) : Option Dynamic → Option String
  | none => some (msg_null name "Dynamic")
  | some b => (earliest_absent (required_dynamic b)).map (msg_missing name "Dynamic")

/-- The diagnostic expected of an object whose Drawable capability does not
fail: that of the first capability, in the order Interactable, CardHandler,
ButtonHandler, Dynamic, whose flag is set and whose bundle is invalid; none
when there is no such capability. -/
def expected_diagnostic (o : ObjectInterfaces) : Option String :=
  ((if o.is_interactable then expected_interactable o.name o.interactable else none).orElse
    fun _ => (if o.can_hold_cards then expected_card_handler o.name o.card_handler else none).orElse
    fun _ => (if o.have_buttons then expected_button_handler o.name o.button_handler else none).orElse
    fun _ => if o.is_dynamic then expected_dynamic o.name o.dynamic else none)

/-- What a bundle pointer stands for in a memory: the absent bundle when it
is `NULL`, else the bundle stored at it; nothing when it points to no bundle. -/
def resolve {β : Type} (cells : Addr → Option β) (p : Addr) : Option (Option β) :=
  if p = 0 then some none else (cells p).map some

/-- The memory `m` holds, at the non-`NULL` address `interfaces`, the object
`o`: the record there has the name and flags of `o`, and each of its bundle
pointers stands for the matching bundle reference of `o`. -/
def Holds (m : Machine) (interfaces : Addr) (o : ObjectInterfaces) : Prop :=
  interfaces ≠ 0 ∧ ∃ r, m.objects interfaces = some r ∧
    r.name = o.name ∧ r.is_drawable = o.is_drawable ∧
    r.is_interactable = o.is_interactable ∧ r.can_hold_cards = o.can_hold_cards ∧
    r.have_buttons = o.have_buttons ∧ r.is_dynamic = o.is_dynamic ∧
    resolve m.drawables r.drawable = some o.drawable ∧
    resolve m.interactables r.interactable = some o.interactable ∧
    resolve m.card_handlers r.card_handler = some o.card_handler ∧
    resolve m.button_handlers r.button_handler = some o.button_handler ∧
    resolve m.dynamics r.dynamic = some o.dynamic

/-- The text `text` occurs in `line`. -/
def mentions (line text : String) : Prop :=
  ∃ pre post : String, line = pre ++ text ++ post

/-! ## Sample objects -/

/-- An object with every flag false and every bundle absent. -/
def bare (name : String) : ObjectInterfaces :=
  { name := name, is_drawable := false, is_interactable := false, can_hold_cards := false,
    have_buttons := false, is_dynamic := false, drawable := none, interactable := none,
    card_handler := none, button_handler := none, dynamic := none }

/-- A CardHandler bundle with both sub-flags false and every entry point
absent. -/
def idle_handler : CardHandler :=
  ⟨false, false, none, none, none, none, none⟩

/-- A deck that declares `can_hold_cards` with a bundle that can give cards
but supplies no entry point. -/
def giving_deck : ObjectInterfaces :=
  { bare "Deck" with
    can_hold_cards := true
    card_handler := some ⟨true, false, none, none, none, none, none⟩ }

/-- The object of the end-to-end example: named `Clock`, only `is_dynamic`
set, a Dynamic bundle supplying `free`. -/
def clock : ObjectInterfaces :=
  { bare "Clock" with is_dynamic := true, dynamic := some ⟨some 4096⟩ }

/-- A CardHandler bundle that can give and take cards and supplies every entry
point. -/
def full_handler : CardHandler :=
  ⟨true, true, some 4, some 5, some 6, some 7, some 8⟩

/-- An Interactable bundle that supplies both entry points. -/
def full_interactable : Interactable :=
  ⟨some 2, some 3⟩

/-- An object that declares all five capabilities and supplies every entry
point. -/
def full_object : ObjectInterfaces :=
  { name := "Table", is_drawable := true, is_interactable := true, can_hold_cards := true,
    have_buttons := true, is_dynamic := true,
    drawable := some ⟨some 1⟩, interactable := some full_interactable,
    card_handler := some full_handler,
    button_handler := some ⟨some 9, some 10⟩, dynamic := some ⟨some 11⟩ }

/-- A memory that holds the object `o` at address `1`, its bundles, where
present, at the addresses `2` to `6`, empty static storage, and the stream
`out`. -/
def machine_of (o : ObjectInterfaces) (out : Stream) : Machine :=
  { objects := fun a =>
      if a = 1 then
        some { name := o.name, is_drawable := o.is_drawable,
               is_interactable := o.is_interactable, can_hold_cards := o.can_hold_cards,
               have_buttons := o.have_buttons, is_dynamic := o.is_dynamic,
               drawable := if o.drawable.isSome then 2 else 0,
               interactable := if o.interactable.isSome then 3 else 0,
               card_handler := if o.card_handler.isSome then 4 else 0,
               button_handler := if o.button_handler.isSome then 5 else 0,
               dynamic := if o.dynamic.isSome then 6 else 0 }
      else none
    drawables := fun a => if a = 2 then o.drawable else none
    interactables := fun a => if a = 3 then o.interactable else none
    card_handlers := fun a => if a = 4 then o.card_handler else none
    button_handlers := fun a => if a = 5 then o.button_handler else none
    dynamics := fun a => if a = 6 then o.dynamic else none
    statics := []
    out := out }

/-! ## Facts about the validators -/

theorem validate_drawable_fst (i : Option Drawable) (name : String) (out : Stream) :
    (validate_drawable i name out).1 = drawable_ok i := by
  rcases i with _ | ⟨_ | p⟩ <;> simp [validate_drawable, drawable_ok]

theorem validate_interactable_fst (i : Option Interactable) (name : String) (out : Stream) :
    (validate_interactable i name out).1 = interactable_ok i := by
  rcases i with _ | ⟨_ | p, _ | q⟩ <;> simp [validate_interactable, interactable_ok]

theorem validate_card_handler_fst (i : Option CardHandler) (name : String) (out : Stream) :
    (validate_card_handler i name out).1 = card_handler_ok i := by
  rcases i with _ | ⟨_ | _, _ | _, _ | a, _ | b, _ | c, _ | d, _ | e⟩ <;>
    simp [validate_card_handler, validate_card_handler_take, card_handler_ok]

theorem validate_button_handler_fst (i : Option ButtonHandler) (name : String) (out : Stream) :
    (validate_button_handler i name out).1 = button_handler_ok i := by
  rcases i with _ | ⟨_ | p, _ | q⟩ <;> simp [validate_button_handler, button_handler_ok]

theorem validate_dynamic_fst (i : Option Dynamic) (name : String) (out : Stream) :
    (validate_dynamic i name out).1 = dynamic_ok i := by
  rcases i with _ | ⟨_ | p⟩ <;> simp [validate_dynamic, dynamic_ok]

/-- A text made of a newline-free prefix, the name, and a tail whose only
newline is its last character is a diagnostic line about the name. -/
theorem diagnostic_line_intro (pre name tail : String) (h1 : '\n' ∉ pre.data)
    (h2 : tail.data.getLast? = some '\n') (h3 : '\n' ∉ tail.data.dropLast) :
    diagnostic_line name (pre ++ name ++ tail) := by
  refine ⟨pre, ⟨tail.data.dropLast⟩, ?_, h1, h3⟩
  have ht : tail = (⟨tail.data.dropLast⟩ : String) ++ "\n" := by
    apply String.ext
    rw [String.data_append]
    exact (List.dropLast_append_getLast? _ h2).symm
  rw [String.append_assoc _ _ "\n", ← ht]

/-- Each validator either accepts and prints nothing, or rejects and prints
exactly one text, a diagnostic line about the object. -/
theorem validate_drawable_out (i : Option Drawable) (name : String) (out : Stream) :
    validate_drawable i name out = (true, out) ∨
      ∃ line, diagnostic_line name line ∧ validate_drawable i name out = (false, out ++ [line]) := by
  rcases i with _ | ⟨_ | p⟩
  · exact Or.inr ⟨_, diagnostic_line_intro _ _ _ (by decide) (by decide) (by decide), rfl⟩
  · exact Or.inr ⟨_, diagnostic_line_intro _ _ _ (by decide) (by decide) (by decide), rfl⟩
  · exact Or.inl rfl

theorem validate_interactable_out (i : Option Interactable) (name : String) (out : Stream) :
    validate_interactable i name out = (true, out) ∨
      ∃ line, diagnostic_line name line ∧
        validate_interactable i name out = (false, out ++ [line]) := by
  rcases i with _ | ⟨_ | p, _ | q⟩ <;>
    first
    | exact Or.inl rfl
    | exact Or.inr ⟨_, diagnostic_line_intro _ _ _ (by decide) (by decide) (by decide), rfl⟩

theorem validate_card_handler_out (i : Option CardHandler) (name : String) (out : Stream) :
    validate_card_handler i name out = (true, out) ∨
      ∃ line, diagnostic_line name line ∧
        validate_card_handler i name out = (false, out ++ [line]) := by
  rcases i with _ | ⟨_ | _, _ | _, _ | a, _ | b, _ | c, _ | d, _ | e⟩ <;>
    first
    | exact Or.inl rfl
    | exact Or.inr ⟨_, diagnostic_line_intro _ _ _ (by decide) (by decide) (by decide), rfl⟩

theorem validate_button_handler_out (i : Option ButtonHandler) (name : String) (out : Stream) :
    validate_button_handler i name out = (true, out) ∨
      ∃ line, diagnostic_line name line ∧
        validate_button_handler i name out = (false, out ++ [line]) := by
  rcases i with _ | ⟨_ | p, _ | q⟩ <;>
    first
    | exact Or.inl rfl
    | exact Or.inr ⟨_, diagnostic_line_intro _ _ _ (by decide) (by decide) (by decide), rfl⟩

theorem validate_dynamic_out (i : Option Dynamic) (name : String) (out : Stream) :
    validate_dynamic i name out = (true, out) ∨
      ∃ line, diagnostic_line name line ∧ validate_dynamic i name out = (false, out ++ [line]) := by
  rcases i with _ | ⟨_ | p⟩ <;>
    first
    | exact Or.inl rfl
    | exact Or.inr ⟨_, diagnostic_line_intro _ _ _ (by decide) (by decide) (by decide), rfl⟩

/-- A validator with the accept-silently / reject-with-one-text shape gives a
quiet registry entry. -/
theorem quiet_of_out {β : Type} (flag : Bool) (i : Option β)
    (f : Option β → String → Stream → Bool × Stream)
    (h : ∀ name out, f i name out = (true, out) ∨
      ∃ line, diagnostic_line name line ∧ f i name out = (false, out ++ [line])) :
    quiet ⟨β, flag, i, f⟩ := by
  intro name out hv
  rcases h name out with h1 | ⟨line, _, h1⟩
  · simp [h1]
  · simp [h1] at hv

theorem validators_quiet (o : ObjectInterfaces) : ∀ v ∈ validators o, quiet v := by
  intro v hv
  simp only [validators, List.mem_cons, List.mem_singleton, List.not_mem_nil, or_false] at hv
  rcases hv with rfl | rfl | rfl | rfl | rfl
  · exact quiet_of_out _ _ _ (validate_drawable_out _)
  · exact quiet_of_out _ _ _ (validate_interactable_out _)
  · exact quiet_of_out _ _ _ (validate_card_handler_out _)
  · exact quiet_of_out _ _ _ (validate_button_handler_out _)
  · exact quiet_of_out _ _ _ (validate_dynamic_out _)

/-! ## Facts about the loop -/

/-- If every entry passes, the loop returns `true` and leaves the stream
untouched. -/
theorem validate_loop_pass (vs : List InterfaceValidator) (name : String) (out : Stream)
    (hq : ∀ v ∈ vs, quiet v) (hp : ∀ v ∈ vs, passes v name out) :
    validate_loop vs name out = (true, out) := by
  induction vs with
  | nil => rfl
  | cons v rest ih =>
    have ihr := ih (fun u hu => hq u (List.mem_cons_of_mem _ hu))
      (fun u hu => hp u (List.mem_cons_of_mem _ hu))
    rcases hp v (List.mem_cons_self _ _) with hflag | hok
    · simp [validate_loop, hflag, ihr]
    · have hs := hq v (List.mem_cons_self _ _) name out hok
      cases hf : v.capability_flag
      · simp [validate_loop, hf, ihr]
      · simp [validate_loop, hf, hok, hs, ihr]

/-- If the entries before `v` pass and `v` is declared and rejected, the loop
returns `false` with the stream `v` left behind; the entries after `v` play no
part. -/
theorem validate_loop_fail (pre : List InterfaceValidator) (v : InterfaceValidator)
    (post : List InterfaceValidator) (name : String) (out : Stream)
    (hq : ∀ u ∈ pre, quiet u) (hp : ∀ u ∈ pre, passes u name out)
    (hv : v.capability_flag = true) (hf : (v.validate v.interface name out).1 = false) :
    validate_loop (pre ++ v :: post) name out = (false, (v.validate v.interface name out).2) := by
  induction pre with
  | nil => simp [validate_loop, hv, hf]
  | cons u rest ih =>
    have ihr := ih (fun w hw => hq w (List.mem_cons_of_mem _ hw))
      (fun w hw => hp w (List.mem_cons_of_mem _ hw))
    rcases hp u (List.mem_cons_self _ _) with hflag | hok
    · simp [validate_loop, hflag, ihr]
    · have hs := hq u (List.mem_cons_self _ _) name out hok
      cases hu : u.capability_flag
      · simp [validate_loop, hu, ihr]
      · simp [validate_loop, hu, hok, hs, ihr]

/-- Either every entry passes, or the list splits at a first entry that is
declared and rejected. -/
theorem first_failure (vs : List InterfaceValidator) (name : String) (out : Stream) :
    (∀ v ∈ vs, passes v name out) ∨
      ∃ pre v post, vs = pre ++ v :: post ∧ (∀ u ∈ pre, passes u name out) ∧
        v.capability_flag = true ∧ (v.validate v.interface name out).1 = false := by
  induction vs with
  | nil => left; simp
  | cons v rest ih =>
    by_cases hv : passes v name out
    · rcases ih with hall | ⟨pre, w, post, heq, hpre, hw, hf⟩
      · left
        intro u hu
        rcases List.mem_cons.mp hu with rfl | hu
        · exact hv
        · exact hall u hu
      · right
        refine ⟨v :: pre, w, post, by simp [heq], ?_, hw, hf⟩
        intro u hu
        rcases List.mem_cons.mp hu with rfl | hu
        · exact hv
        · exact hpre u hu
    · right
      refine ⟨[], v, rest, rfl, by simp, ?_, ?_⟩
      · cases h : v.capability_flag
        · exact absurd (Or.inl h) hv
        · rfl
      · cases h : (v.validate v.interface name out).1
        · rfl
        · exact absurd (Or.inr h) hv

/-- One turn of the loop on an entry whose validator accepts silently or
rejects with one text: either the entry passes and the loop goes on with the
same stream, or it is declared and rejected and the loop ends there. -/
theorem validate_loop_cons_cases {β : Type} (flag : Bool) (i : Option β)
    (f : Option β → String → Stream → Bool × Stream) (rest : List InterfaceValidator)
    (name : String) (out : Stream)
    (h : f i name out = (true, out) ∨
      ∃ line, diagnostic_line name line ∧ f i name out = (false, out ++ [line])) :
    ((flag = false ∨ (f i name out).1 = true) ∧
      validate_loop (⟨β, flag, i, f⟩ :: rest) name out = validate_loop rest name out) ∨
    (flag = true ∧ ∃ line, diagnostic_line name line ∧ f i name out = (false, out ++ [line]) ∧
      validate_loop (⟨β, flag, i, f⟩ :: rest) name out = (false, out ++ [line])) := by
  cases flag
  · left; simp [validate_loop]
  · rcases h with h | ⟨line, hl, h⟩
    · left; simp [validate_loop, h]
    · right; exact ⟨rfl, line, hl, h, by simp [validate_loop, h]⟩

/-- The registry entries all pass exactly when the validity invariant holds. -/
theorem passes_iff_valid (o : ObjectInterfaces) (out : Stream) :
    (∀ v ∈ validators o, passes v o.name out) ↔ Valid o := by
  simp only [validators, List.forall_mem_cons, List.not_mem_nil, false_imp_iff, implies_true,
    and_true, passes, Valid, validate_drawable_fst, validate_interactable_fst,
    validate_card_handler_fst, validate_button_handler_fst, validate_dynamic_fst]
  cases o.is_drawable <;> cases o.is_interactable <;> cases o.can_hold_cards <;>
    cases o.have_buttons <;> cases o.is_dynamic <;> simp

/-- The whole behaviour of the engine in one statement: a valid object gives
`true` and an untouched stream; otherwise the registry splits at the first
declared and rejected entry and the result is `false` with the stream that
entry's validator left behind. -/
theorem validate_object_interfaces_cases (o : ObjectInterfaces) (out : Stream) :
    (Valid o ∧ validate_object_interfaces o out = (true, out)) ∨
    (¬ Valid o ∧ ∃ pre v post, validators o = pre ++ v :: post ∧
      (∀ u ∈ pre, passes u o.name out) ∧ v.capability_flag = true ∧
      (v.validate v.interface o.name out).1 = false ∧
      validate_object_interfaces o out = (false, (v.validate v.interface o.name out).2)) := by
  rcases first_failure (validators o) o.name out with hall | ⟨pre, v, post, heq, hpre, hv, hf⟩
  · left
    exact ⟨(passes_iff_valid o out).mp hall,
      validate_loop_pass _ _ _ (validators_quiet o) hall⟩
  · right
    have hq : ∀ u ∈ pre, quiet u := fun u hu =>
      validators_quiet o u (by rw [heq]; exact List.mem_append_left _ hu)
    refine ⟨?_, pre, v, post, heq, hpre, hv, hf, ?_⟩
    · intro hvalid
      have hp := (passes_iff_valid o out).mpr hvalid v (by rw [heq]; simp)
      rcases hp with h | h
      · rw [hv] at h; cases h
      · rw [hf] at h; cases h
    · unfold validate_object_interfaces
      rw [heq]
      exact validate_loop_fail pre v post o.name out hq hpre hv hf

/-- On failure the engine prints exactly one diagnostic line, the one printed by
the validator of the first capability, in registry order, that is declared and
invalid. -/
theorem first_failing_capability (o : ObjectInterfaces) (out : Stream)
    (hfail : (validate_object_interfaces o out).1 = false) :
      ∃ line, diagnostic_line o.name line ∧
        validate_object_interfaces o out = (false, out ++ [line]) ∧
        ((o.is_drawable = true ∧ drawable_ok o.drawable = false ∧
            validate_drawable o.drawable o.name out = (false, out ++ [line])) ∨
         ((o.is_drawable = false ∨ drawable_ok o.drawable = true) ∧
            o.is_interactable = true ∧ interactable_ok o.interactable = false ∧
            validate_interactable o.interactable o.name out = (false, out ++ [line])) ∨
         ((o.is_drawable = false ∨ drawable_ok o.drawable = true) ∧
            (o.is_interactable = false ∨ interactable_ok o.interactable = true) ∧
            o.can_hold_cards = true ∧ card_handler_ok o.card_handler = false ∧
            validate_card_handler o.card_handler o.name out = (false, out ++ [line])) ∨
         ((o.is_drawable = false ∨ drawable_ok o.drawable = true) ∧
            (o.is_interactable = false ∨ interactable_ok o.interactable = true) ∧
            (o.can_hold_cards = false ∨ card_handler_ok o.card_handler = true) ∧
            o.have_buttons = true ∧ button_handler_ok o.button_handler = false ∧
            validate_button_handler o.button_handler o.name out = (false, out ++ [line])) ∨
         ((o.is_drawable = false ∨ drawable_ok o.drawable = true) ∧
            (o.is_interactable = false ∨ interactable_ok o.interactable = true) ∧
            (o.can_hold_cards = false ∨ card_handler_ok o.card_handler = true) ∧
            (o.have_buttons = false ∨ button_handler_ok o.button_handler = true) ∧
            o.is_dynamic = true ∧ dynamic_ok o.dynamic = false ∧
            validate_dynamic o.dynamic o.name out = (false, out ++ [line]))) := by
  have notok : ∀ {b : Bool} {p : Bool × Stream} {s : Stream}, p.1 = b → p = (false, s) →
      b = false := by
    intro b p s h1 h2; rw [← h1, h2]
  unfold validate_object_interfaces validators at *
  rcases validate_loop_cons_cases o.is_drawable o.drawable validate_drawable _ o.name out
    (validate_drawable_out _ _ _) with ⟨p1, e1⟩ | ⟨f1, line, hl, h1, e1⟩
  swap
  · exact ⟨line, hl, e1, Or.inl ⟨f1, notok (validate_drawable_fst _ _ _) h1, h1⟩⟩
  rw [validate_drawable_fst] at p1
  rw [e1] at hfail ⊢
  rcases validate_loop_cons_cases o.is_interactable o.interactable validate_interactable _
    o.name out (validate_interactable_out _ _ _) with ⟨p2, e2⟩ | ⟨f2, line, hl, h2, e2⟩
  swap
  · exact ⟨line, hl, e2, Or.inr (Or.inl ⟨p1, f2, notok (validate_interactable_fst _ _ _) h2, h2⟩)⟩
  rw [validate_interactable_fst] at p2
  rw [e2] at hfail ⊢
  rcases validate_loop_cons_cases o.can_hold_cards o.card_handler validate_card_handler _
    o.name out (validate_card_handler_out _ _ _) with ⟨p3, e3⟩ | ⟨f3, line, hl, h3, e3⟩
  swap
  · exact ⟨line, hl, e3, Or.inr (Or.inr (Or.inl
      ⟨p1, p2, f3, notok (validate_card_handler_fst _ _ _) h3, h3⟩))⟩
  rw [validate_card_handler_fst] at p3
  rw [e3] at hfail ⊢
  rcases validate_loop_cons_cases o.have_buttons o.button_handler validate_button_handler _
    o.name out (validate_button_handler_out _ _ _) with ⟨p4, e4⟩ | ⟨f4, line, hl, h4, e4⟩
  swap
  · exact ⟨line, hl, e4, Or.inr (Or.inr (Or.inr (Or.inl
      ⟨p1, p2, p3, f4, notok (validate_button_handler_fst _ _ _) h4, h4⟩)))⟩
  rw [validate_button_handler_fst] at p4
  rw [e4] at hfail ⊢
  rcases validate_loop_cons_cases o.is_dynamic o.dynamic validate_dynamic _
    o.name out (validate_dynamic_out _ _ _) with ⟨p5, e5⟩ | ⟨f5, line, hl, h5, e5⟩
  swap
  · exact ⟨line, hl, e5, Or.inr (Or.inr (Or.inr (Or.inr
      ⟨p1, p2, p3, p4, f5, notok (validate_dynamic_fst _ _ _) h5, h5⟩)))⟩
  rw [e5] at hfail
  simp [validate_loop] at hfail

/-- The Interactable validator prints the expected diagnostic, if any. -/
theorem validate_interactable_expected (i : Option Interactable) (name : String)
    (out : Stream) :
    validate_interactable i name out =
      match expected_interactable name i with
      | none => (true, out)
      | some line => (false, out ++ [line]) := by
  rcases i with _ | ⟨_ | p, _ | q⟩ <;> rfl

/-- The CardHandler validator prints the expected diagnostic, if any. -/
theorem validate_card_handler_expected (i : Option CardHandler) (name : String)
    (out : Stream) :
    validate_card_handler i name out =
      match expected_card_handler name i with
      | none => (true, out)
      | some line => (false, out ++ [line]) := by
  rcases i with _ | ⟨_ | _, _ | _, _ | a, _ | b, _ | c, _ | d, _ | e⟩ <;> rfl

/-- The ButtonHandler validator prints the expected diagnostic, if any. -/
theorem validate_button_handler_expected (i : Option ButtonHandler) (name : String)
    (out : Stream) :
    validate_button_handler i name out =
      match expected_button_handler name i with
      | none => (true, out)
      | some line => (false, out ++ [line]) := by
  rcases i with _ | ⟨_ | p, _ | q⟩ <;> rfl

/-- The Dynamic validator prints the expected diagnostic, if any. -/
theorem validate_dynamic_expected (i : Option Dynamic) (name : String) (out : Stream) :
    validate_dynamic i name out =
      match expected_dynamic name i with
      | none => (true, out)
      | some line => (false, out ++ [line]) := by
  rcases i with _ | ⟨_ | p⟩ <;> rfl

/-- When the Drawable capability does not fail, the engine returns `true`
silently if no diagnostic is expected and otherwise `false` with the expected
diagnostic as its only output. -/
theorem validate_object_interfaces_expected (o : ObjectInterfaces) (out : Stream)
    (hd : o.is_drawable = false ∨ drawable_ok o.drawable = true) :
    validate_object_interfaces o out =
      match expected_diagnostic o with
      | none => (true, out)
      | some line => (false, out ++ [line]) := by
  unfold validate_object_interfaces validators
  rcases validate_loop_cons_cases o.is_drawable o.drawable validate_drawable _ o.name out
    (validate_drawable_out _ _ _) with ⟨_, e1⟩ | ⟨f1, line, _, h1, _⟩
  · rw [e1]
    simp only [validate_loop, validate_interactable_expected, validate_card_handler_expected,
      validate_button_handler_expected, validate_dynamic_expected, expected_diagnostic]
    cases o.is_interactable <;> cases o.can_hold_cards <;> cases o.have_buttons <;>
      cases o.is_dynamic <;> cases expected_interactable o.name o.interactable <;>
      cases expected_card_handler o.name o.card_handler <;>
      cases expected_button_handler o.name o.button_handler <;>
      cases expected_dynamic o.name o.dynamic <;> rfl
  · exfalso
    have h2 := validate_drawable_fst o.drawable o.name out
    rw [h1] at h2
    rcases hd with hd | hd
    · rw [f1] at hd; cases hd
    · rw [hd] at h2; cases h2

/-- The engine returns `true` exactly on the valid objects. -/
theorem returns_true_iff_valid (o : ObjectInterfaces) (out : Stream) :
    (validate_object_interfaces o out).1 = true ↔ Valid o := by
  rcases validate_object_interfaces_cases o out with ⟨hv, h⟩ | ⟨hv, _, _, _, _, _, _, _, h⟩
  · simp [h, hv]
  · simp [h, hv]

/-- The loop does not look at the stream: run from any stream, it returns the
boolean and appends the texts it returns and prints from the empty stream,
provided each validator of the list behaves so. -/
theorem validate_loop_frame (vs : List InterfaceValidator) (name : String)
    (hv : ∀ v ∈ vs, ∀ out, v.validate v.interface name out =
      ((v.validate v.interface name []).1, out ++ (v.validate v.interface name []).2))
    (out : Stream) :
    validate_loop vs name out =
      ((validate_loop vs name []).1, out ++ (validate_loop vs name []).2) := by
  induction vs generalizing out with
  | nil => simp [validate_loop]
  | cons v rest ih =>
    have ihr := ih (fun u hu => hv u (List.mem_cons_of_mem _ hu))
    have hhead := hv v (List.mem_cons_self _ _)
    cases hf : v.capability_flag
    · simp only [validate_loop, hf, Bool.false_eq_true, if_false]
      exact ihr out
    · cases hb : (v.validate v.interface name []).1
      · have h1 := hhead out
        rw [hb] at h1
        simp [validate_loop, hf, h1, hb]
      · have h1 := hhead out
        rw [hb] at h1
        simp only [validate_loop, hf, if_true, h1, hb, Bool.not_true, Bool.false_eq_true,
          if_false]
        rw [ihr (out ++ (v.validate v.interface name []).2),
          ihr (v.validate v.interface name []).2]
        simp [List.append_assoc]

/-- No validator looks at the stream. -/
theorem validate_drawable_frame (i : Option Drawable) (name : String) (out : Stream) :
    validate_drawable i name out =
      ((validate_drawable i name []).1, out ++ (validate_drawable i name []).2) := by
  rcases i with _ | ⟨_ | p⟩ <;> simp [validate_drawable, wprintf]

theorem validate_interactable_frame (i : Option Interactable) (name : String) (out : Stream) :
    validate_interactable i name out =
      ((validate_interactable i name []).1, out ++ (validate_interactable i name []).2) := by
  rcases i with _ | ⟨_ | p, _ | q⟩ <;> simp [validate_interactable, wprintf]

theorem validate_card_handler_frame (i : Option CardHandler) (name : String) (out : Stream) :
    validate_card_handler i name out =
      ((validate_card_handler i name []).1, out ++ (validate_card_handler i name []).2) := by
  rcases i with _ | ⟨_ | _, _ | _, _ | a, _ | b, _ | c, _ | d, _ | e⟩ <;>
    simp [validate_card_handler, validate_card_handler_take, wprintf]

theorem validate_button_handler_frame (i : Option ButtonHandler) (name : String)
    (out : Stream) :
    validate_button_handler i name out =
      ((validate_button_handler i name []).1,
        out ++ (validate_button_handler i name []).2) := by
  rcases i with _ | ⟨_ | p, _ | q⟩ <;> simp [validate_button_handler, wprintf]

theorem validate_dynamic_frame (i : Option Dynamic) (name : String) (out : Stream) :
    validate_dynamic i name out =
      ((validate_dynamic i name []).1, out ++ (validate_dynamic i name []).2) := by
  rcases i with _ | ⟨_ | p⟩ <;> simp [validate_dynamic, wprintf]

/-- The engine does not look at the stream. -/
theorem validate_object_interfaces_frame (o : ObjectInterfaces) (out : Stream) :
    validate_object_interfaces o out =
      ((validate_object_interfaces o []).1, out ++ (validate_object_interfaces o []).2) := by
  unfold validate_object_interfaces
  apply validate_loop_frame
  intro v hv out
  simp only [validators, List.mem_cons, List.mem_singleton, List.not_mem_nil, or_false] at hv
  rcases hv with rfl | rfl | rfl | rfl | rfl
  · exact validate_drawable_frame _ _ _
  · exact validate_interactable_frame _ _ _
  · exact validate_card_handler_frame _ _ _
  · exact validate_button_handler_frame _ _ _
  · exact validate_dynamic_frame _ _ _

/-- A text that goes on with a colon right after some characters is not those
same characters behind a character other than a colon. -/
theorem no_leading_quote (q : Char) (hq : q ≠ ':') (n A B : List Char)
    (hA : A.head? = some ':') : n ++ A ≠ q :: (n ++ B) := by
  induction n with
  | nil =>
    intro h
    simp only [List.nil_append] at h
    rw [h] at hA
    simp only [List.head?_cons, Option.some.injEq] at hA
    exact hq hA
  | cons c n ih =>
    intro h
    simp only [List.cons_append, List.cons.injEq] at h
    obtain ⟨hc, ht⟩ := h
    rw [hc] at ht
    exact ih ht

/-- A line that has the name unquoted, followed by a colon, is not a line that
has the name in single quotes. -/
theorem drawable_line_unquoted (name tail rest : String) (ht : tail.data.head? = some ':') :
    "Error in " ++ name ++ tail ≠ "Error in '" ++ name ++ "': " ++ rest := by
  intro h
  have hd := congrArg String.data h
  simp only [String.data_append, List.append_assoc, List.cons_append, List.nil_append,
    List.cons.injEq, true_and] at hd
  exact no_leading_quote _ (by decide) _ _ _ ht hd

/-- A printed line whose text after the name starts with `sep` is the text
before the name, the name, `sep` and a rest. -/
theorem line_with_lead (pre name sep tail : String) (out : Stream)
    (h : tail.data.take sep.data.length = sep.data) :
    ∃ rest, ((false, wprintf (pre ++ name ++ tail) out) : Bool × Stream)
      = (false, out ++ [pre ++ name ++ sep ++ rest]) := by
  refine ⟨⟨tail.data.drop sep.data.length⟩, ?_⟩
  have ht : tail = sep ++ (⟨tail.data.drop sep.data.length⟩ : String) := by
    have hl := (List.take_append_drop sep.data.length tail.data).symm
    rw [h] at hl
    apply String.ext
    rw [String.data_append]
    exact hl
  rw [String.append_assoc _ sep, ← ht]
  rfl

/-- The validators with guarded reads never fault and agree with the plain
ones. -/
theorem validate_drawable_checked_ok (i : Option Drawable) (name : String) (out : Stream) :
    validate_drawable_checked i name out = .ok (validate_drawable i name out) := by
  rcases i with _ | ⟨_ | p⟩ <;> rfl

theorem validate_interactable_checked_ok (i : Option Interactable) (name : String)
    (out : Stream) :
    validate_interactable_checked i name out = .ok (validate_interactable i name out) := by
  rcases i with _ | ⟨_ | p, _ | q⟩ <;> rfl

theorem validate_card_handler_checked_ok (i : Option CardHandler) (name : String)
    (out : Stream) :
    validate_card_handler_checked i name out = .ok (validate_card_handler i name out) := by
  rcases i with _ | ⟨_ | _, _ | _, _ | a, _ | b, _ | c, _ | d, _ | e⟩ <;> rfl

theorem validate_button_handler_checked_ok (i : Option ButtonHandler) (name : String)
    (out : Stream) :
    validate_button_handler_checked i name out
      = .ok (validate_button_handler i name out) := by
  rcases i with _ | ⟨_ | p, _ | q⟩ <;> rfl

theorem validate_dynamic_checked_ok (i : Option Dynamic) (name : String) (out : Stream) :
    validate_dynamic_checked i name out = .ok (validate_dynamic i name out) := by
  rcases i with _ | ⟨_ | p⟩ <;> rfl

/-- One turn of the loop: if the guarded validator of the head entry never
faults and agrees with the plain one, and the rest of the loop does too, so
does the whole loop. -/
theorem validate_loop_checked_cons {β : Type} (flag : Bool) (i : Option β)
    (f : Option β → String → Stream → Bool × Stream)
    (g : Option β → String → Stream → Except Fault (Bool × Stream))
    (rest : List InterfaceValidator) (rest' : List CheckedValidator) (name : String)
    (hfg : ∀ out, g i name out = .ok (f i name out))
    (hrest : ∀ out, validate_loop_checked rest' name out = .ok (validate_loop rest name out))
    (out : Stream) :
    validate_loop_checked (⟨β, flag, i, g⟩ :: rest') name out
      = .ok (validate_loop (⟨β, flag, i, f⟩ :: rest) name out) := by
  cases flag
  · simp [validate_loop_checked, validate_loop, hrest]
  · cases hb : (f i name out).1 <;>
      simp [validate_loop_checked, validate_loop, hfg, hrest, hb]

/-- The engine with guarded reads never faults and agrees with the plain
one. -/
theorem validate_object_interfaces_checked_ok (o : ObjectInterfaces) (out : Stream) :
    validate_object_interfaces_checked o out = .ok (validate_object_interfaces o out) := by
  unfold validate_object_interfaces_checked validate_object_interfaces validators_checked
    validators
  refine validate_loop_checked_cons _ _ _ _ _ _ _ (validate_drawable_checked_ok _ _) ?_ out
  refine validate_loop_checked_cons _ _ _ _ _ _ _ (validate_interactable_checked_ok _ _) ?_
  refine validate_loop_checked_cons _ _ _ _ _ _ _ (validate_card_handler_checked_ok _ _) ?_
  refine validate_loop_checked_cons _ _ _ _ _ _ _ (validate_button_handler_checked_ok _ _) ?_
  refine validate_loop_checked_cons _ _ _ _ _ _ _ (validate_dynamic_checked_ok _ _) ?_
  intro out
  rfl

/-- A load through a good pointer returns the record and leaves the memory as
it is. -/
theorem load_run {β : Type} (cells : Machine → Addr → Option β) (p : Addr) (m : Machine)
    (b : β) (hp : p ≠ 0) (h : cells m p = some b) :
    (load cells p).run m = pure (b, m) := by
  simp [load, hp, h]

/-- Run on a memory in which its pointer stands for a bundle reference, each
validator over the memory returns what the plain validator returns on that
reference and leaves the memory as it is but for the texts printed. -/
theorem validate_drawable_exec_run (m : Machine) (a : Addr) (i : Option Drawable)
    (name : String) (h : resolve m.drawables a = some i) :
    (validate_drawable_exec a name).run m =
      pure ((validate_drawable i name m.out).1,
        { m with out := (validate_drawable i name m.out).2 }) := by
  unfold resolve at h
  by_cases ha : a = 0
  · subst ha
    simp only [if_true, Option.some.injEq] at h
    subst h
    rfl
  · simp only [ha, if_false, Option.map_eq_some'] at h
    obtain ⟨d, hd, rfl⟩ := h
    have hl := load_run Machine.drawables a m d ha hd
    rcases d with ⟨_ | p⟩ <;>
      simp [validate_drawable_exec, validate_drawable, ha, hl, wprintf_exec]

theorem validate_interactable_exec_run (m : Machine) (a : Addr) (i : Option Interactable)
    (name : String) (h : resolve m.interactables a = some i) :
    (validate_interactable_exec a name).run m =
      pure ((validate_interactable i name m.out).1,
        { m with out := (validate_interactable i name m.out).2 }) := by
  unfold resolve at h
  by_cases ha : a = 0
  · subst ha
    simp only [if_true, Option.some.injEq] at h
    subst h
    rfl
  · simp only [ha, if_false, Option.map_eq_some'] at h
    obtain ⟨d, hd, rfl⟩ := h
    have hl := load_run Machine.interactables a m d ha hd
    rcases d with ⟨_ | p, _ | q⟩ <;>
      simp [validate_interactable_exec, validate_interactable, ha, hl, wprintf_exec]

theorem validate_card_handler_exec_run (m : Machine) (a : Addr) (i : Option CardHandler)
    (name : String) (h : resolve m.card_handlers a = some i) :
    (validate_card_handler_exec a name).run m =
      pure ((validate_card_handler i name m.out).1,
        { m with out := (validate_card_handler i name m.out).2 }) := by
  unfold resolve at h
  by_cases ha : a = 0
  · subst ha
    simp only [if_true, Option.some.injEq] at h
    subst h
    rfl
  · simp only [ha, if_false, Option.map_eq_some'] at h
    obtain ⟨d, hd, rfl⟩ := h
    have hl := load_run Machine.card_handlers a m d ha hd
    rcases d with ⟨_ | _, _ | _, p, q, r, s, t⟩ <;>
      simp only [validate_card_handler_exec, ha, hl, StateT.run_bind, pure_bind, if_false,
        if_true, Bool.false_eq_true] <;>
      rcases p with _ | p <;> rcases q with _ | q <;> rcases r with _ | r <;>
      rcases s with _ | s <;> rcases t with _ | t <;>
      first
      | rfl
      | (simp only [Option.isNone_none, Option.isNone_some, if_true, if_false,
          Bool.false_eq_true, StateT.run_bind, hl, pure_bind]; rfl)

theorem validate_button_handler_exec_run (m : Machine) (a : Addr)
    (i : Option ButtonHandler) (name : String) (h : resolve m.button_handlers a = some i) :
    (validate_button_handler_exec a name).run m =
      pure ((validate_button_handler i name m.out).1,
        { m with out := (validate_button_handler i name m.out).2 }) := by
  unfold resolve at h
  by_cases ha : a = 0
  · subst ha
    simp only [if_true, Option.some.injEq] at h
    subst h
    rfl
  · simp only [ha, if_false, Option.map_eq_some'] at h
    obtain ⟨d, hd, rfl⟩ := h
    have hl := load_run Machine.button_handlers a m d ha hd
    rcases d with ⟨_ | p, _ | q⟩ <;>
      simp [validate_button_handler_exec, validate_button_handler, ha, hl, wprintf_exec]

theorem validate_dynamic_exec_run (m : Machine) (a : Addr) (i : Option Dynamic)
    (name : String) (h : resolve m.dynamics a = some i) :
    (validate_dynamic_exec a name).run m =
      pure ((validate_dynamic i name m.out).1,
        { m with out := (validate_dynamic i name m.out).2 }) := by
  unfold resolve at h
  by_cases ha : a = 0
  · subst ha
    simp only [if_true, Option.some.injEq] at h
    subst h
    rfl
  · simp only [ha, if_false, Option.map_eq_some'] at h
    obtain ⟨d, hd, rfl⟩ := h
    have hl := load_run Machine.dynamics a m d ha hd
    rcases d with ⟨_ | p⟩ <;>
      simp [validate_dynamic_exec, validate_dynamic, ha, hl, wprintf_exec]

/-- One turn of the loop over the memory: if the validator of the head entry
and the rest of the loop do what their plain counterparts do, whatever the
stream, so does the whole loop. -/
theorem validate_loop_exec_cons (m : Machine) (p : Addr) (r : ObjectRecord) {β : Type}
    (flag : Bool) (a : Addr) (i : Option β)
    (f : Option β → String → Stream → Bool × Stream) (g : Addr → String → Exec Bool)
    (rest : List InterfaceValidator) (rest' : List ExecValidator)
    (hp : p ≠ 0) (hr : m.objects p = some r)
    (hg : ∀ s, (g a r.name).run { m with out := s } =
      pure ((f i r.name s).1, { m with out := (f i r.name s).2 }))
    (hrest : ∀ s, (validate_loop_exec p rest').run { m with out := s } =
      pure ((validate_loop rest r.name s).1, { m with out := (validate_loop rest r.name s).2 }))
    (s : Stream) :
    (validate_loop_exec p (⟨flag, a, g⟩ :: rest')).run { m with out := s } =
      pure ((validate_loop (⟨β, flag, i, f⟩ :: rest) r.name s).1,
        { m with out := (validate_loop (⟨β, flag, i, f⟩ :: rest) r.name s).2 }) := by
  have hl : ∀ t, (load Machine.objects p).run { m with out := t } = pure (r, { m with out := t }) :=
    fun t => load_run Machine.objects p { m with out := t } r hp hr
  cases flag
  · simp [validate_loop_exec, validate_loop, hrest]
  · cases hb : (f i r.name s).1 <;>
      simp [validate_loop_exec, validate_loop, hl, hg, hrest, hb]

/-- Run on a memory that holds the object `o` at `interfaces`, the engine over
the memory returns what the plain engine returns on `o` and leaves the memory
as it is but for the texts printed. -/
theorem validate_object_interfaces_exec_run (m : Machine) (p : Addr) (o : ObjectInterfaces)
    (h : Holds m p o) (s : Stream) :
    (validate_object_interfaces_exec p).run { m with out := s } =
      pure ((validate_object_interfaces o s).1,
        { m with out := (validate_object_interfaces o s).2 }) := by
  obtain ⟨hp, r, hr, hn, f1, f2, f3, f4, f5, b1, b2, b3, b4, b5⟩ := h
  have hl : (load Machine.objects p).run { m with out := s } = pure (r, { m with out := s }) :=
    load_run Machine.objects p { m with out := s } r hp hr
  unfold validate_object_interfaces_exec validate_object_interfaces validators
  simp only [StateT.run_bind, hl, pure_bind]
  rw [← hn, ← f1, ← f2, ← f3, ← f4, ← f5]
  refine validate_loop_exec_cons m p r _ _ _ _ _ _ _ hp hr
    (fun t => validate_drawable_exec_run { m with out := t } _ _ _ b1) ?_ s
  refine validate_loop_exec_cons m p r _ _ _ _ _ _ _ hp hr
    (fun t => validate_interactable_exec_run { m with out := t } _ _ _ b2) ?_
  refine validate_loop_exec_cons m p r _ _ _ _ _ _ _ hp hr
    (fun t => validate_card_handler_exec_run { m with out := t } _ _ _ b3) ?_
  refine validate_loop_exec_cons m p r _ _ _ _ _ _ _ hp hr
    (fun t => validate_button_handler_exec_run { m with out := t } _ _ _ b4) ?_
  refine validate_loop_exec_cons m p r _ _ _ _ _ _ _ hp hr
    (fun t => validate_dynamic_exec_run { m with out := t } _ _ _ b5) ?_
  intro t
  rfl

/-- Every object is held by some memory: the one `machine_of` builds. -/
theorem holds_machine_of (o : ObjectInterfaces) (out : Stream) :
    Holds (machine_of o out) 1 o := by
  refine ⟨by decide, _, rfl, rfl, rfl, rfl, rfl, rfl, rfl, ?_, ?_, ?_, ?_, ?_⟩
  · cases h : o.drawable <;> simp [resolve, machine_of, h]
  · cases h : o.interactable <;> simp [resolve, machine_of, h]
  · cases h : o.card_handler <;> simp [resolve, machine_of, h]
  · cases h : o.button_handler <;> simp [resolve, machine_of, h]
  · cases h : o.dynamic <;> simp [resolve, machine_of, h]

/-! ## The claims of the specification -/

/-- C1: `validate_object_interfaces` returns true if and only if the validity
invariant of the specification holds: every capability flag that is set has
its bundle present, and that bundle supplies every entry point required of its
kind (for CardHandler, those required under the sub-flags that are true). -/
theorem validate_object_interfaces_iff_valid (o : ObjectInterfaces) (out : Stream) :
    (validate_object_interfaces o out).1 = true ↔ Valid o := by
  rcases validate_object_interfaces_cases o out with ⟨hv, h⟩ | ⟨hv, _, _, _, _, _, _, _, h⟩
  · simp [h, hv]
  · simp [h, hv]

/-- C2: a bundle whose capability flag is false is not inspected: replacing
the bundle reference of such a capability by any other reference (absent, or
present with any contents) changes neither the boolean returned nor the
diagnostic output. -/
theorem unflagged_bundle_irrelevant (o : ObjectInterfaces) (out : Stream) :
    (o.is_drawable = false → ∀ b : Option Drawable,
      validate_object_interfaces { o with drawable := b } out
        = validate_object_interfaces o out) ∧
    (o.is_interactable = false → ∀ b : Option Interactable,
      validate_object_interfaces { o with interactable := b } out
        = validate_object_interfaces o out) ∧
    (o.can_hold_cards = false → ∀ b : Option CardHandler,
      validate_object_interfaces { o with card_handler := b } out
        = validate_object_interfaces o out) ∧
    (o.have_buttons = false → ∀ b : Option ButtonHandler,
      validate_object_interfaces { o with button_handler := b } out
        = validate_object_interfaces o out) ∧
    (o.is_dynamic = false → ∀ b : Option Dynamic,
      validate_object_interfaces { o with dynamic := b } out
        = validate_object_interfaces o out) := by
  refine ⟨?_, ?_, ?_, ?_, ?_⟩ <;> intro h b <;>
    simp [validate_object_interfaces, validators, validate_loop, h]

theorem unflagged_bundle_irrelevant_witness :
    validate_object_interfaces { bare "Deck" with drawable := some ⟨none⟩ } []
      = validate_object_interfaces (bare "Deck") [] ∧
    validate_object_interfaces { bare "Deck" with interactable := some ⟨none, some 7⟩ } []
      = validate_object_interfaces (bare "Deck") [] ∧
    validate_object_interfaces
        { bare "Deck" with card_handler := some ⟨true, true, none, none, none, none, none⟩ } []
      = validate_object_interfaces (bare "Deck") [] ∧
    validate_object_interfaces { bare "Deck" with button_handler := some ⟨none, none⟩ } []
      = validate_object_interfaces (bare "Deck") [] ∧
    validate_object_interfaces { bare "Deck" with dynamic := some ⟨none⟩ } []
      = validate_object_interfaces (bare "Deck") [] :=
  ⟨(unflagged_bundle_irrelevant (bare "Deck") []).1 rfl _,
   (unflagged_bundle_irrelevant (bare "Deck") []).2.1 rfl _,
   (unflagged_bundle_irrelevant (bare "Deck") []).2.2.1 rfl _,
   (unflagged_bundle_irrelevant (bare "Deck") []).2.2.2.1 rfl _,
   (unflagged_bundle_irrelevant (bare "Deck") []).2.2.2.2 rfl _⟩

/-- C3: whenever a capability flag is true and the bundle reference of that
capability is absent, `validate_object_interfaces` returns false, whatever the
other flags and bundles are; this holds for each of the five capabilities. -/
theorem declared_absent_bundle_rejected (o : ObjectInterfaces) (out : Stream) :
    (o.is_drawable = true → o.drawable = none →
      (validate_object_interfaces o out).1 = false) ∧
    (o.is_interactable = true → o.interactable = none →
      (validate_object_interfaces o out).1 = false) ∧
    (o.can_hold_cards = true → o.card_handler = none →
      (validate_object_interfaces o out).1 = false) ∧
    (o.have_buttons = true → o.button_handler = none →
      (validate_object_interfaces o out).1 = false) ∧
    (o.is_dynamic = true → o.dynamic = none →
      (validate_object_interfaces o out).1 = false) := by
  have key : ¬ Valid o → (validate_object_interfaces o out).1 = false := by
    intro hn
    rcases validate_object_interfaces_cases o out with ⟨hv, _⟩ | ⟨_, _, _, _, _, _, _, _, h⟩
    · exact absurd hv hn
    · rw [h]
  refine ⟨?_, ?_, ?_, ?_, ?_⟩ <;> intro hflag hnone <;> apply key <;> intro hv
  · have := hv.1 hflag; simp [hnone, drawable_ok] at this
  · have := hv.2.1 hflag; simp [hnone, interactable_ok] at this
  · have := hv.2.2.1 hflag; simp [hnone, card_handler_ok] at this
  · have := hv.2.2.2.1 hflag; simp [hnone, button_handler_ok] at this
  · have := hv.2.2.2.2 hflag; simp [hnone, dynamic_ok] at this

theorem declared_absent_bundle_rejected_witness :
    (validate_object_interfaces { bare "Deck" with is_drawable := true } []).1 = false ∧
    (validate_object_interfaces { bare "Deck" with is_interactable := true } []).1 = false ∧
    (validate_object_interfaces { bare "Deck" with can_hold_cards := true } []).1 = false ∧
    (validate_object_interfaces { bare "Deck" with have_buttons := true } []).1 = false ∧
    (validate_object_interfaces { bare "Deck" with is_dynamic := true } []).1 = false :=
  ⟨(declared_absent_bundle_rejected { bare "Deck" with is_drawable := true } []).1 rfl rfl,
   (declared_absent_bundle_rejected { bare "Deck" with is_interactable := true } []).2.1 rfl rfl,
   (declared_absent_bundle_rejected { bare "Deck" with can_hold_cards := true } []).2.2.1 rfl rfl,
   (declared_absent_bundle_rejected { bare "Deck" with have_buttons := true } []).2.2.2.1 rfl rfl,
   (declared_absent_bundle_rejected { bare "Deck" with is_dynamic := true } []).2.2.2.2 rfl rfl⟩

/-- C4: the capabilities are checked in the order Drawable, Interactable,
CardHandler, ButtonHandler, Dynamic and the first failing one ends the check:
when `validate_object_interfaces` returns false, its diagnostic output is
exactly one text, the one printed by the validator of the first capability, in
that order, whose flag is set and whose bundle is invalid (every capability
before it has its flag false or a valid bundle); later capabilities add
nothing. In particular a declared, absent Drawable bundle together with
a declared, absent Dynamic bundle reports the Drawable violation only. -/
theorem global_short_circuit (o : ObjectInterfaces) (out : Stream) :
    ((validate_object_interfaces o out).1 = false →
      ∃ line, validate_object_interfaces o out = (false, out ++ [line]) ∧
        ((o.is_drawable = true ∧ drawable_ok o.drawable = false ∧
            validate_drawable o.drawable o.name out = (false, out ++ [line])) ∨
         ((o.is_drawable = false ∨ drawable_ok o.drawable = true) ∧
            o.is_interactable = true ∧ interactable_ok o.interactable = false ∧
            validate_interactable o.interactable o.name out = (false, out ++ [line])) ∨
         ((o.is_drawable = false ∨ drawable_ok o.drawable = true) ∧
            (o.is_interactable = false ∨ interactable_ok o.interactable = true) ∧
            o.can_hold_cards = true ∧ card_handler_ok o.card_handler = false ∧
            validate_card_handler o.card_handler o.name out = (false, out ++ [line])) ∨
         ((o.is_drawable = false ∨ drawable_ok o.drawable = true) ∧
            (o.is_interactable = false ∨ interactable_ok o.interactable = true) ∧
            (o.can_hold_cards = false ∨ card_handler_ok o.card_handler = true) ∧
            o.have_buttons = true ∧ button_handler_ok o.button_handler = false ∧
            validate_button_handler o.button_handler o.name out = (false, out ++ [line])) ∨
         ((o.is_drawable = false ∨ drawable_ok o.drawable = true) ∧
            (o.is_interactable = false ∨ interactable_ok o.interactable = true) ∧
            (o.can_hold_cards = false ∨ card_handler_ok o.card_handler = true) ∧
            (o.have_buttons = false ∨ button_handler_ok o.button_handler = true) ∧
            o.is_dynamic = true ∧ dynamic_ok o.dynamic = false ∧
            validate_dynamic o.dynamic o.name out = (false, out ++ [line])))) ∧
    (o.is_drawable = true → o.drawable = none → o.is_dynamic = true → o.dynamic = none →
      validate_object_interfaces o out
        = (false, out ++ ["Error in " ++ o.name ++ ": Drawable interface is NULL\n"])) :=
  ⟨fun hfail => (first_failing_capability o out hfail).imp (fun _ h => h.2),
   fun h1 h2 _ _ => by
    simp [validate_object_interfaces, validators, validate_loop, h1, h2, validate_drawable,
      wprintf]⟩

theorem global_short_circuit_witness :
    (∃ line, validate_object_interfaces
        { bare "Deck" with is_drawable := true, is_dynamic := true } [] = (false, [] ++ [line])) ∧
    validate_object_interfaces { bare "Deck" with is_drawable := true, is_dynamic := true } []
      = (false, [] ++ ["Error in " ++ "Deck" ++ ": Drawable interface is NULL\n"]) :=
  ⟨((global_short_circuit { bare "Deck" with is_drawable := true, is_dynamic := true } []).1
      (by decide)).imp (fun _ h => h.1),
   (global_short_circuit { bare "Deck" with is_drawable := true, is_dynamic := true } []).2
      rfl rfl rfl rfl⟩

/-- C5: within one present bundle with two or more required entry points
absent at once, the validator returns false and prints exactly one diagnostic,
which names the earliest absent entry point in the documented order
(Interactable: move, place_cursor; ButtonHandler: is_button_position,
handle_button; CardHandler: select_cards, get_cards, is_same_card under
can_give_cards, then can_place, place_cards under can_take_cards). -/
theorem earliest_absent_reported (name : String) (out : Stream) :
    (∀ b : Interactable, 2 ≤ absent_count (required_interactable b) →
      ∃ entry, earliest_absent (required_interactable b) = some entry ∧
        validate_interactable (some b) name out
          = (false, out ++ [msg_missing name "Interactable" entry])) ∧
    (∀ b : ButtonHandler, 2 ≤ absent_count (required_button_handler b) →
      ∃ entry, earliest_absent (required_button_handler b) = some entry ∧
        validate_button_handler (some b) name out
          = (false, out ++ [msg_missing name "ButtonHandler" entry])) ∧
    (∀ b : CardHandler, 2 ≤ absent_count (required_card_handler b) →
      ∃ flag entry, earliest_absent (required_card_handler b) = some (flag, entry) ∧
        validate_card_handler (some b) name out
          = (false, out ++ [msg_declares name flag entry])) := by
  refine ⟨?_, ?_, ?_⟩
  · intro b h
    rcases b with ⟨_ | p, _ | q⟩ <;>
      first
      | exact ⟨_, rfl, rfl⟩
      | (exfalso; simp [absent_count, required_interactable] at h)
  · intro b h
    rcases b with ⟨_ | p, _ | q⟩ <;>
      first
      | exact ⟨_, rfl, rfl⟩
      | (exfalso; simp [absent_count, required_button_handler] at h)
  · intro b h
    rcases b with ⟨_ | _, _ | _, _ | a, _ | b, _ | c, _ | d, _ | e⟩ <;>
      first
      | exact ⟨_, _, rfl, rfl⟩
      | (exfalso; simp [absent_count, required_card_handler] at h)

theorem earliest_absent_reported_witness :
    (∃ entry, earliest_absent (required_interactable ⟨none, none⟩) = some entry ∧
      validate_interactable (some ⟨none, none⟩) "Deck" []
        = (false, [] ++ [msg_missing "Deck" "Interactable" entry])) ∧
    (∃ entry, earliest_absent (required_button_handler ⟨none, none⟩) = some entry ∧
      validate_button_handler (some ⟨none, none⟩) "Deck" []
        = (false, [] ++ [msg_missing "Deck" "ButtonHandler" entry])) ∧
    (∃ flag entry,
      earliest_absent (required_card_handler ⟨true, true, some 1, none, some 2, none, none⟩)
        = some (flag, entry) ∧
      validate_card_handler (some ⟨true, true, some 1, none, some 2, none, none⟩) "Deck" []
        = (false, [] ++ [msg_declares "Deck" flag entry])) :=
  ⟨(earliest_absent_reported "Deck" []).1 ⟨none, none⟩ (by decide),
   (earliest_absent_reported "Deck" []).2.1 ⟨none, none⟩ (by decide),
   (earliest_absent_reported "Deck" []).2.2 ⟨true, true, some 1, none, some 2, none, none⟩
     (by decide)⟩

/-- C6: one call of `validate_object_interfaces` prints exactly one diagnostic
line when it returns false and nothing at all when it returns true; it never
prints two or more. -/
theorem one_diagnostic_or_none (o : ObjectInterfaces) (out : Stream) :
    ((validate_object_interfaces o out).1 = false →
      ∃ line, diagnostic_line o.name line ∧
        (validate_object_interfaces o out).2 = out ++ [line]) ∧
    ((validate_object_interfaces o out).1 = true →
      (validate_object_interfaces o out).2 = out) := by
  constructor
  · intro hfail
    obtain ⟨line, hl, h, _⟩ := first_failing_capability o out hfail
    exact ⟨line, hl, by rw [h]⟩
  · intro hok
    rcases validate_object_interfaces_cases o out with ⟨_, h⟩ | ⟨_, _, _, _, _, _, _, _, h⟩
    · rw [h]
    · rw [h] at hok; cases hok

theorem one_diagnostic_or_none_witness :
    (∃ line, diagnostic_line giving_deck.name line ∧
      (validate_object_interfaces giving_deck []).2 = [] ++ [line]) ∧
    (validate_object_interfaces clock []).2 = [] :=
  ⟨(one_diagnostic_or_none giving_deck []).1 (by decide),
   (one_diagnostic_or_none clock []).2 (by decide)⟩

/-- C7: a present CardHandler bundle with `can_give_cards` and `can_take_cards`
both false is accepted by `validate_card_handler` without any diagnostic,
whatever its entry points are (all of them may be absent), and so is an object
whose only set flag is `can_hold_cards` with that bundle. -/
theorem idle_card_handler_accepted (b : CardHandler) (name : String) (out : Stream)
    (hg : b.can_give_cards = false) (ht : b.can_take_cards = false) :
    validate_card_handler (some b) name out = (true, out) ∧
    ∀ o : ObjectInterfaces, o.is_drawable = false → o.is_interactable = false →
      o.can_hold_cards = true → o.have_buttons = false → o.is_dynamic = false →
      o.card_handler = some b → validate_object_interfaces o out = (true, out) := by
  have h : ∀ n, validate_card_handler (some b) n out = (true, out) := by
    intro n
    simp [validate_card_handler, validate_card_handler_take, hg, ht]
  refine ⟨h name, ?_⟩
  intro o h1 h2 h3 h4 h5 h6
  simp [validate_object_interfaces, validators, validate_loop, h1, h2, h3, h4, h5, h6, h o.name]

theorem idle_card_handler_accepted_witness :
    validate_card_handler (some idle_handler) "Deck" [] = (true, []) ∧
    validate_object_interfaces
      { bare "Deck" with can_hold_cards := true, card_handler := some idle_handler } []
        = (true, []) :=
  ⟨(idle_card_handler_accepted idle_handler "Deck" [] rfl rfl).1,
   (idle_card_handler_accepted idle_handler "Deck" [] rfl rfl).2 _ rfl rfl rfl rfl rfl rfl⟩

/-- C8: for a present CardHandler bundle with `can_give_cards` true: if
`select_cards` is present and `get_cards` is absent, validation fails with the
diagnostic naming `get_cards`; if `select_cards` and `get_cards` are present
and `is_same_card` is absent, it fails with the diagnostic naming
`is_same_card`; in both cases whatever `can_take_cards`, `can_place` and
`place_cards` are. -/
theorem card_handler_give_coverage (b : CardHandler) (name : String) (out : Stream)
    (hg : b.can_give_cards = true) :
    (b.select_cards ≠ none → b.get_cards = none →
      validate_card_handler (some b) name out
        = (false, out ++ [msg_declares name "can_give_cards" "get_cards"])) ∧
    (b.select_cards ≠ none → b.get_cards ≠ none → b.is_same_card = none →
      validate_card_handler (some b) name out
        = (false, out ++ [msg_declares name "can_give_cards" "is_same_card"])) := by
  rcases b with ⟨g, t, _ | a, _ | b, _ | c, d, e⟩ <;> cases hg <;>
    simp [validate_card_handler, wprintf, msg_declares]

theorem card_handler_give_coverage_witness :
    validate_card_handler (some ⟨true, true, some 1, none, none, none, none⟩) "Deck" []
      = (false, [] ++ [msg_declares "Deck" "can_give_cards" "get_cards"]) ∧
    validate_card_handler (some ⟨true, false, some 1, some 2, none, none, some 3⟩) "Deck" []
      = (false, [] ++ [msg_declares "Deck" "can_give_cards" "is_same_card"]) :=
  ⟨(card_handler_give_coverage ⟨true, true, some 1, none, none, none, none⟩ "Deck" [] rfl).1
      (by decide) rfl,
   (card_handler_give_coverage ⟨true, false, some 1, some 2, none, none, some 3⟩ "Deck" []
      rfl).2 (by decide) (by decide) rfl⟩

/-- C9, the claim as stated fails: the deck that declares `can_give_cards`
without `select_cards` is rejected with a line that is not of the form
`Error in '<object name>': <Bundle> interface is <condition>` for any of the
five bundle kinds and any condition (the second form of the claim, `<Bundle>
interface is missing '<entry point>' function`, is the case of a condition
`missing '<entry point>' function`). -/
theorem diagnostic_format_counterexample :
    validate_object_interfaces giving_deck [] = (false,
      ["Error in 'Deck': Object declares can_give_cards but 'select_cards' function are missing\n"])
    ∧ ¬ ∃ kind ∈ bundle_kinds, ∃ condition,
      "Error in 'Deck': Object declares can_give_cards but 'select_cards' function are missing\n"
        = msg_interface "Deck" kind condition := by
  refine ⟨by decide, ?_⟩
  rintro ⟨kind, hk, condition, h⟩
  have hdata := congrArg String.data h
  simp only [bundle_kinds, List.mem_cons, List.mem_singleton, List.not_mem_nil, or_false] at hk
  rcases hk with rfl | rfl | rfl | rfl | rfl <;>
    simp [msg_interface, String.data_append] at hdata

/-- C9 as amended: when validation fails at a capability other than Drawable
(the Drawable flag is false or the Drawable bundle is valid), the only line
printed is that of the first declared and invalid capability among
Interactable, CardHandler, ButtonHandler, Dynamic:
`Error in '<object name>': <Bundle> interface is NULL` when its bundle is
absent; `Error in '<object name>': <Bundle> interface is missing '<entry point>'
function` when an Interactable, ButtonHandler or Dynamic bundle lacks a required
entry point; `Error in '<object name>': Object declares <sub-flag> but
'<entry point>' function are missing` when a CardHandler bundle lacks an entry
point required under a true sub-flag; the entry point named is the earliest
missing one, and the line ends with a newline. -/
theorem diagnostic_format_amended (o : ObjectInterfaces) (out : Stream)
    (hfail : (validate_object_interfaces o out).1 = false)
    (hd : o.is_drawable = false ∨ drawable_ok o.drawable = true) :
    ∃ line, expected_diagnostic o = some line ∧
      validate_object_interfaces o out = (false, out ++ [line]) := by
  have h := validate_object_interfaces_expected o out hd
  cases he : expected_diagnostic o with
  | none => rw [he] at h; rw [h] at hfail; cases hfail
  | some line => rw [he] at h; exact ⟨line, rfl, h⟩

theorem diagnostic_format_amended_witness :
    ∃ line, expected_diagnostic giving_deck = some line ∧
      validate_object_interfaces giving_deck [] = (false, [] ++ [line]) :=
  diagnostic_format_amended giving_deck [] (by decide) (by decide)

/-- C10: an object whose only set capability flag is `is_dynamic`, whose
Dynamic bundle is present and supplies `free`, and whose other four flags are
false (whatever the four other bundle references are) validates to true with
no diagnostic output; the object named `Clock` is such an object. -/
theorem only_dynamic_accepted (o : ObjectInterfaces) (out : Stream) (d : Dynamic)
    (h1 : o.is_drawable = false) (h2 : o.is_interactable = false)
    (h3 : o.can_hold_cards = false) (h4 : o.have_buttons = false)
    (h5 : o.is_dynamic = true) (hd : o.dynamic = some d) (hfree : d.free ≠ none) :
    validate_object_interfaces o out = (true, out) := by
  rcases d with ⟨_ | a⟩
  · exact absurd rfl hfree
  · simp [validate_object_interfaces, validators, validate_loop, h1, h2, h3, h4, h5, hd,
      validate_dynamic]

theorem only_dynamic_accepted_witness :
    clock.name = "Clock" ∧ validate_object_interfaces clock [] = (true, []) :=
  ⟨rfl, only_dynamic_accepted clock [] ⟨some 4096⟩ rfl rfl rfl rfl rfl rfl (by decide)⟩

/-- C11: validation keeps no state and writes to no memory but the output
stream. Run on any memory that holds an object, `validate_object_interfaces`
returns a boolean and leaves the memory as it was (the record, every bundle
and the static storage) but for the diagnostic text appended to the stream; a
second call on the memory left by the first returns the same boolean and
appends the same text, and again changes nothing else; the boolean and the text
are those of the plain rendering on that object. -/
theorem validation_idempotent (m : Machine) (interfaces : Addr) (o : ObjectInterfaces)
    (h : Holds m interfaces o) :
    ∃ (b : Bool) (emitted : Stream),
      (validate_object_interfaces_exec interfaces).run m
        = .ok (b, { m with out := m.out ++ emitted }) ∧
      (validate_object_interfaces_exec interfaces).run { m with out := m.out ++ emitted }
        = .ok (b, { m with out := m.out ++ emitted ++ emitted }) ∧
      Holds { m with out := m.out ++ emitted } interfaces o ∧
      Holds { m with out := m.out ++ emitted ++ emitted } interfaces o ∧
      validate_object_interfaces o m.out = (b, m.out ++ emitted) := by
  have key := validate_object_interfaces_exec_run m interfaces o h
  have fr := validate_object_interfaces_frame o
  refine ⟨(validate_object_interfaces o []).1, (validate_object_interfaces o []).2,
    ?_, ?_, h, h, fr m.out⟩
  · have h1 := key m.out
    rw [fr m.out] at h1
    exact h1
  · have h2 := key (m.out ++ (validate_object_interfaces o []).2)
    rw [fr (m.out ++ (validate_object_interfaces o []).2)] at h2
    exact h2

theorem validation_idempotent_witness :
    ∃ (b : Bool) (emitted : Stream),
      (validate_object_interfaces_exec 1).run (machine_of giving_deck [])
        = .ok (b, { machine_of giving_deck [] with
            out := (machine_of giving_deck []).out ++ emitted }) ∧
      (validate_object_interfaces_exec 1).run { machine_of giving_deck [] with
            out := (machine_of giving_deck []).out ++ emitted }
        = .ok (b, { machine_of giving_deck [] with
            out := (machine_of giving_deck []).out ++ emitted ++ emitted }) ∧
      Holds { machine_of giving_deck [] with
            out := (machine_of giving_deck []).out ++ emitted } 1 giving_deck ∧
      Holds { machine_of giving_deck [] with
            out := (machine_of giving_deck []).out ++ emitted ++ emitted } 1 giving_deck ∧
      validate_object_interfaces giving_deck (machine_of giving_deck []).out
        = (b, (machine_of giving_deck []).out ++ emitted) :=
  validation_idempotent (machine_of giving_deck []) 1 giving_deck
    ⟨by decide, _, rfl, rfl, rfl, rfl, rfl, rfl, rfl, rfl, rfl, rfl, rfl, rfl⟩

/-- C12: `validate_card_handler` returns true if and only if the bundle is
present, `can_give_cards` implies that `select_cards`, `get_cards` and
`is_same_card` are present, and `can_take_cards` implies that `can_place` and
`place_cards` are present; the give side is checked first, so with both
sub-flags true and an entry point absent on each side the diagnostic names the
earliest absent give-side entry point. -/
theorem card_handler_decision (name : String) (out : Stream) :
    (∀ i : Option CardHandler, (validate_card_handler i name out).1 = true ↔
      ∃ b, i = some b ∧
        (b.can_give_cards = true →
          b.select_cards ≠ none ∧ b.get_cards ≠ none ∧ b.is_same_card ≠ none) ∧
        (b.can_take_cards = true → b.can_place ≠ none ∧ b.place_cards ≠ none)) ∧
    (∀ b : CardHandler, b.can_give_cards = true → b.can_take_cards = true →
      (b.select_cards = none ∨ b.get_cards = none ∨ b.is_same_card = none) →
      (b.can_place = none ∨ b.place_cards = none) →
      ∃ entry, entry ∈ ["select_cards", "get_cards", "is_same_card"] ∧
        earliest_absent (required_card_handler b) = some ("can_give_cards", entry) ∧
        validate_card_handler (some b) name out
          = (false, out ++ [msg_declares name "can_give_cards" entry])) := by
  constructor
  · intro i
    rcases i with _ | ⟨_ | _, _ | _, _ | a, _ | b, _ | c, _ | d, _ | e⟩ <;>
      simp [validate_card_handler, validate_card_handler_take]
  · intro b hg ht h1 h2
    rcases b with ⟨_ | _, _ | _, _ | a, _ | b, _ | c, _ | d, _ | e⟩ <;>
      first
      | exact ⟨_, by simp, rfl, rfl⟩
      | simp_all

theorem card_handler_decision_witness :
    (∃ b, some idle_handler = some b ∧
        (b.can_give_cards = true →
          b.select_cards ≠ none ∧ b.get_cards ≠ none ∧ b.is_same_card ≠ none) ∧
        (b.can_take_cards = true → b.can_place ≠ none ∧ b.place_cards ≠ none)) ∧
    (∃ entry, entry ∈ ["select_cards", "get_cards", "is_same_card"] ∧
      earliest_absent (required_card_handler ⟨true, true, some 1, none, none, none, none⟩)
        = some ("can_give_cards", entry) ∧
      validate_card_handler (some ⟨true, true, some 1, none, none, none, none⟩) "Deck" []
        = (false, [] ++ [msg_declares "Deck" "can_give_cards" entry])) :=
  ⟨((card_handler_decision "Deck" []).1 (some idle_handler)).mp (by decide),
   (card_handler_decision "Deck" []).2 ⟨true, true, some 1, none, none, none, none⟩ rfl rfl
     (by decide) (by decide)⟩

/-- C13: for every name, `validate_drawable` fails with a diagnostic containing
`Drawable interface is NULL` when the bundle reference is absent, fails with a
diagnostic containing `missing print function` when the bundle is present and
`print` is absent, and succeeds without any diagnostic when the bundle is
present with `print`. -/
theorem validate_drawable_behaviour (name : String) (out : Stream) :
    (∃ line, mentions line "Drawable interface is NULL" ∧
      validate_drawable none name out = (false, out ++ [line])) ∧
    (∀ d : Drawable, d.print = none →
      ∃ line, mentions line "missing print function" ∧
        validate_drawable (some d) name out = (false, out ++ [line])) ∧
    (∀ d : Drawable, d.print ≠ none → validate_drawable (some d) name out = (true, out)) := by
  refine ⟨⟨_, ⟨"Error in " ++ name ++ ": ", "\n", ?_⟩, rfl⟩, ?_, ?_⟩
  · simp only [String.append_assoc]
    rfl
  · rintro ⟨_ | p⟩ h
    · refine ⟨_, ⟨"Error in " ++ name ++ ": Drawable interface is ", "\n", ?_⟩, rfl⟩
      simp only [String.append_assoc]
      rfl
    · cases h
  · rintro ⟨_ | p⟩ h
    · exact absurd rfl h
    · rfl

theorem validate_drawable_behaviour_witness :
    (∃ line, mentions line "missing print function" ∧
      validate_drawable (some ⟨none⟩) "Deck" [] = (false, [] ++ [line])) ∧
    validate_drawable (some ⟨some 1⟩) "Deck" [] = (true, []) :=
  ⟨(validate_drawable_behaviour "Deck" []).2.1 ⟨none⟩ rfl,
   (validate_drawable_behaviour "Deck" []).2.2 ⟨some 1⟩ (by decide)⟩

/-- C14: every diagnostic of the Drawable validator has the object name
unquoted (`Error in <name>: ...`, never `Error in '<name>': ...`), and every
diagnostic of the Interactable, CardHandler, ButtonHandler and Dynamic
validators has it in single quotes (`Error in '<name>': ...`), for every name
and every rejected bundle reference. -/
theorem name_quoting (name : String) (out : Stream) :
    (∀ i, (validate_drawable i name out).1 = false →
      (∃ rest, validate_drawable i name out
        = (false, out ++ ["Error in " ++ name ++ ": " ++ rest])) ∧
      ∀ rest, validate_drawable i name out
        ≠ (false, out ++ ["Error in '" ++ name ++ "': " ++ rest])) ∧
    (∀ i, (validate_interactable i name out).1 = false →
      ∃ rest, validate_interactable i name out
        = (false, out ++ ["Error in '" ++ name ++ "': " ++ rest])) ∧
    (∀ i, (validate_card_handler i name out).1 = false →
      ∃ rest, validate_card_handler i name out
        = (false, out ++ ["Error in '" ++ name ++ "': " ++ rest])) ∧
    (∀ i, (validate_button_handler i name out).1 = false →
      ∃ rest, validate_button_handler i name out
        = (false, out ++ ["Error in '" ++ name ++ "': " ++ rest])) ∧
    (∀ i, (validate_dynamic i name out).1 = false →
      ∃ rest, validate_dynamic i name out
        = (false, out ++ ["Error in '" ++ name ++ "': " ++ rest])) := by
  refine ⟨?_, ?_, ?_, ?_, ?_⟩
  · intro i h
    rcases i with _ | ⟨_ | p⟩
    · refine ⟨line_with_lead _ _ _ _ _ (by decide), ?_⟩
      intro rest hr
      have h2 := congrArg Prod.snd hr
      simp only [validate_drawable, wprintf, List.append_cancel_left_eq, List.cons.injEq,
        and_true] at h2
      exact drawable_line_unquoted name ": Drawable interface is NULL\n" rest (by decide) h2
    · refine ⟨line_with_lead _ _ _ _ _ (by decide), ?_⟩
      intro rest hr
      have h2 := congrArg Prod.snd hr
      simp only [validate_drawable, wprintf, Option.isNone_none, if_true,
        List.append_cancel_left_eq, List.cons.injEq, and_true] at h2
      exact drawable_line_unquoted name ": Drawable interface is missing print function\n"
        rest (by decide) h2
    · simp [validate_drawable] at h
  · intro i h
    rcases i with _ | ⟨_ | p, _ | q⟩ <;>
      first
      | exact line_with_lead _ _ _ _ _ (by decide)
      | simp [validate_interactable] at h
  · intro i h
    rcases i with _ | ⟨_ | _, _ | _, _ | a, _ | b, _ | c, _ | d, _ | e⟩ <;>
      first
      | exact line_with_lead _ _ _ _ _ (by decide)
      | simp [validate_card_handler, validate_card_handler_take] at h
  · intro i h
    rcases i with _ | ⟨_ | p, _ | q⟩ <;>
      first
      | exact line_with_lead _ _ _ _ _ (by decide)
      | simp [validate_button_handler] at h
  · intro i h
    rcases i with _ | ⟨_ | p⟩ <;>
      first
      | exact line_with_lead _ _ _ _ _ (by decide)
      | simp [validate_dynamic] at h

theorem name_quoting_witness :
    (∃ rest, validate_drawable (some ⟨none⟩) "Deck" []
      = (false, [] ++ ["Error in " ++ "Deck" ++ ": " ++ rest])) ∧
    (∃ rest, validate_interactable (some ⟨some 1, none⟩) "Deck" []
      = (false, [] ++ ["Error in '" ++ "Deck" ++ "': " ++ rest])) ∧
    (∃ rest, validate_card_handler (some ⟨false, true, none, none, none, none, none⟩) "Deck" []
      = (false, [] ++ ["Error in '" ++ "Deck" ++ "': " ++ rest])) ∧
    (∃ rest, validate_button_handler none "Deck" []
      = (false, [] ++ ["Error in '" ++ "Deck" ++ "': " ++ rest])) ∧
    (∃ rest, validate_dynamic (some ⟨none⟩) "Deck" []
      = (false, [] ++ ["Error in '" ++ "Deck" ++ "': " ++ rest])) :=
  ⟨((name_quoting "Deck" []).1 (some ⟨none⟩) (by decide)).1,
   (name_quoting "Deck" []).2.1 (some ⟨some 1, none⟩) (by decide),
   (name_quoting "Deck" []).2.2.1 (some ⟨false, true, none, none, none, none, none⟩)
     (by decide),
   (name_quoting "Deck" []).2.2.2.1 none (by decide),
   (name_quoting "Deck" []).2.2.2.2 (some ⟨none⟩) (by decide)⟩

/-- C15: validity is preserved by declaring less or supplying more. When
`validate_object_interfaces` returns true on an object, it still returns true
after any capability flag is set to false, after `can_give_cards` or
`can_take_cards` is set to false inside the CardHandler bundle, and after any
entry point of any bundle is replaced by a present one; and an object with all
five flags false always validates to true. -/
theorem validity_monotone (o : ObjectInterfaces) (out : Stream)
    (h : (validate_object_interfaces o out).1 = true) :
    ((validate_object_interfaces { o with is_drawable := false } out).1 = true ∧
     (validate_object_interfaces { o with is_interactable := false } out).1 = true ∧
     (validate_object_interfaces { o with can_hold_cards := false } out).1 = true ∧
     (validate_object_interfaces { o with have_buttons := false } out).1 = true ∧
     (validate_object_interfaces { o with is_dynamic := false } out).1 = true) ∧
    (∀ b, o.card_handler = some b →
      (validate_object_interfaces
        { o with card_handler := some { b with can_give_cards := false } } out).1 = true ∧
      (validate_object_interfaces
        { o with card_handler := some { b with can_take_cards := false } } out).1 = true) ∧
    (∀ b a, o.drawable = some b →
      (validate_object_interfaces
        { o with drawable := some { b with print := some a } } out).1 = true) ∧
    (∀ b a, o.interactable = some b →
      (validate_object_interfaces
        { o with interactable := some { b with move := some a } } out).1 = true ∧
      (validate_object_interfaces
        { o with interactable := some { b with place_cursor := some a } } out).1 = true) ∧
    (∀ b a, o.card_handler = some b →
      (validate_object_interfaces
        { o with card_handler := some { b with select_cards := some a } } out).1 = true ∧
      (validate_object_interfaces
        { o with card_handler := some { b with get_cards := some a } } out).1 = true ∧
      (validate_object_interfaces
        { o with card_handler := some { b with is_same_card := some a } } out).1 = true ∧
      (validate_object_interfaces
        { o with card_handler := some { b with can_place := some a } } out).1 = true ∧
      (validate_object_interfaces
        { o with card_handler := some { b with place_cards := some a } } out).1 = true) ∧
    (∀ b a, o.button_handler = some b →
      (validate_object_interfaces
        { o with button_handler := some { b with is_button_position := some a } } out).1
          = true ∧
      (validate_object_interfaces
        { o with button_handler := some { b with handle_button := some a } } out).1 = true) ∧
    (∀ b a, o.dynamic = some b →
      (validate_object_interfaces
        { o with dynamic := some { b with free := some a } } out).1 = true) ∧
    (∀ p : ObjectInterfaces, p.is_drawable = false → p.is_interactable = false →
      p.can_hold_cards = false → p.have_buttons = false → p.is_dynamic = false →
      validate_object_interfaces p out = (true, out)) := by
  have hv := (returns_true_iff_valid o out).mp h
  obtain ⟨v1, v2, v3, v4, v5⟩ := hv
  simp only [returns_true_iff_valid, Valid]
  refine ⟨⟨?_, ?_, ?_, ?_, ?_⟩, ?_, ?_, ?_, ?_, ?_, ?_, ?_⟩
  · exact ⟨(fun hf => by cases hf), v2, v3, v4, v5⟩
  · exact ⟨v1, (fun hf => by cases hf), v3, v4, v5⟩
  · exact ⟨v1, v2, (fun hf => by cases hf), v4, v5⟩
  · exact ⟨v1, v2, v3, (fun hf => by cases hf), v5⟩
  · exact ⟨v1, v2, v3, v4, fun hf => by cases hf⟩
  · intro b hb
    rw [hb] at v3
    refine ⟨⟨v1, v2, fun hf => ?_, v4, v5⟩, ⟨v1, v2, fun hf => ?_, v4, v5⟩⟩ <;>
      have v := v3 hf <;> simp only [card_handler_ok] at v ⊢ <;> simp_all
  · intro b a _
    exact ⟨fun _ => rfl, v2, v3, v4, v5⟩
  · intro b a hb
    rw [hb] at v2
    refine ⟨⟨v1, fun hf => ?_, v3, v4, v5⟩, ⟨v1, fun hf => ?_, v3, v4, v5⟩⟩ <;>
      have v := v2 hf <;> simp only [interactable_ok] at v ⊢ <;> simp_all
  · intro b a hb
    rw [hb] at v3
    refine ⟨⟨v1, v2, fun hf => ?_, v4, v5⟩, ⟨v1, v2, fun hf => ?_, v4, v5⟩,
      ⟨v1, v2, fun hf => ?_, v4, v5⟩, ⟨v1, v2, fun hf => ?_, v4, v5⟩,
      ⟨v1, v2, fun hf => ?_, v4, v5⟩⟩ <;>
      have v := v3 hf <;> simp only [card_handler_ok] at v ⊢ <;> simp_all <;> tauto
  · intro b a hb
    rw [hb] at v4
    refine ⟨⟨v1, v2, v3, fun hf => ?_, v5⟩, ⟨v1, v2, v3, fun hf => ?_, v5⟩⟩ <;>
      have v := v4 hf <;> simp only [button_handler_ok] at v ⊢ <;> simp_all
  · intro b a _
    exact ⟨v1, v2, v3, v4, fun _ => rfl⟩
  · intro p h1 h2 h3 h4 h5
    simp [validate_object_interfaces, validators, validate_loop, h1, h2, h3, h4, h5]

/-- C16: for a present CardHandler bundle, when `can_give_cards` is false the
result and the diagnostic of `validate_card_handler` do not depend on
`select_cards`, `get_cards` or `is_same_card`, and when `can_take_cards` is
false they do not depend on `can_place` or `place_cards`. -/
theorem card_handler_subflag_noninterference (b : CardHandler) (name : String)
    (out : Stream) :
    (b.can_give_cards = false → ∀ s g c : FnPtr,
      validate_card_handler
          (some { b with select_cards := s, get_cards := g, is_same_card := c }) name out
        = validate_card_handler (some b) name out) ∧
    (b.can_take_cards = false → ∀ p q : FnPtr,
      validate_card_handler (some { b with can_place := p, place_cards := q }) name out
        = validate_card_handler (some b) name out) := by
  constructor
  · intro h s g c
    simp [validate_card_handler, validate_card_handler_take, h]
  · intro h p q
    simp [validate_card_handler, validate_card_handler_take, h]

theorem card_handler_subflag_noninterference_witness :
    validate_card_handler (some { idle_handler with
        select_cards := some 1, get_cards := none, is_same_card := some 2 }) "Deck" []
      = validate_card_handler (some idle_handler) "Deck" [] ∧
    validate_card_handler (some { idle_handler with
        can_place := some 3, place_cards := none }) "Deck" []
      = validate_card_handler (some idle_handler) "Deck" [] :=
  ⟨(card_handler_subflag_noninterference idle_handler "Deck" []).1 rfl _ _ _,
   (card_handler_subflag_noninterference idle_handler "Deck" []).2 rfl _ _⟩

theorem validity_monotone_witness :
    (validate_object_interfaces { full_object with is_drawable := false } []).1 = true ∧
    (validate_object_interfaces { full_object with
      card_handler := some { full_handler with can_give_cards := false } } []).1 = true ∧
    (validate_object_interfaces { full_object with
      interactable := some { full_interactable with move := some 12 } } []).1 = true ∧
    validate_object_interfaces (bare "Deck") [] = (true, []) :=
  ⟨(validity_monotone full_object [] (by decide)).1.1,
   ((validity_monotone full_object [] (by decide)).2.1 _ rfl).1,
   ((validity_monotone full_object [] (by decide)).2.2.2.1 _ 12 rfl).1,
   (validity_monotone full_object [] (by decide)).2.2.2.2.2.2.2 (bare "Deck")
     rfl rfl rfl rfl rfl⟩

/-- C17: with field reads through a bundle pointer failing when the bundle is
absent, `validate_object_interfaces` completes with a boolean for every
combination of flags and bundle references and never reads a field of an absent
bundle: each of the five validators returns on an absent bundle before any
field read, so none of them ever faults, and neither does the engine; the
results are those of the rendering without guarded reads. -/
theorem no_read_through_absent_bundle (o : ObjectInterfaces) (out : Stream) :
    (∀ (β α : Type) (field : β → α),
      read_field (none : Option β) field = .error .null_dereference) ∧
    validate_object_interfaces_checked o out = .ok (validate_object_interfaces o out) ∧
    (∀ i name, validate_drawable_checked i name out = .ok (validate_drawable i name out)) ∧
    (∀ i name,
      validate_interactable_checked i name out = .ok (validate_interactable i name out)) ∧
    (∀ i name,
      validate_card_handler_checked i name out = .ok (validate_card_handler i name out)) ∧
    (∀ i name,
      validate_button_handler_checked i name out
        = .ok (validate_button_handler i name out)) ∧
    (∀ i name, validate_dynamic_checked i name out = .ok (validate_dynamic i name out)) :=
  ⟨fun _ _ _ => rfl, validate_object_interfaces_checked_ok o out,
    fun i name => validate_drawable_checked_ok i name out,
    fun i name => validate_interactable_checked_ok i name out,
    fun i name => validate_card_handler_checked_ok i name out,
    fun i name => validate_button_handler_checked_ok i name out,
    fun i name => validate_dynamic_checked_ok i name out⟩

end MiniCore
